import Mathlib

/-!
Shallow embedding of the `ai_analyzer` legal-complaint pipeline.

Conventions of the embedding:
* Python `str` is modeled as `String` (a list of characters); `str.strip()` is
  `pyStrip` below, using Python's ASCII whitespace set.
* Python `None`-able values are `Option`; a JSON object field that may be
  absent is `Option` (with `none` = key absent).
* JSON numbers are `ℚ` (the claims never depend on binary rounding).
* Machine state that the code only observes (the filesystem, the Gemini
  response, the wall clock) is passed in explicitly as an environment.
* The Supabase client is a state machine `DB σ`: every call returns either
  `.ok` (the insert/update happened) or `.error` (the client raised), plus a
  successor state.  The pipeline interpreter records every call it issues,
  with its outcome, in a trace of `DBEvent`s.
* Database row identifiers are `Nat` (in production they are UUID strings;
  no claim depends on their shape).
-/

namespace AiAnalyzer

/-- Python's ASCII whitespace characters, as used by `str.strip()` and
`str.isspace()`. -/
def isPyWs (c : Char) : Bool :=
  c == ' ' || c == '\t' || c == '\n' || c == '\r' || c == '\x0b' || c == '\x0c'

/-- Drop trailing whitespace characters (the right half of `str.strip()`). -/
def dropTrailWs : List Char → List Char
  | [] => []
  | c :: rest =>
    let r := dropTrailWs rest
    if r.isEmpty then (if isPyWs c then [] else [c]) else c :: r

/-- Python `str.strip()` on a character list. -/
def wsStrip (l : List Char) : List Char :=
  dropTrailWs (l.dropWhile isPyWs)

/-- Python `str.strip()`. -/
def pyStrip (s : String) : String :=
  String.mk (wsStrip s.data)

/-- Python truthiness of an optional string: `None` and `""` are falsy. -/
def strTruthy : Option String → Bool
  | none => false
  | some s => !s.isEmpty

/-- Python `a or b` where `a`, `b` are optional strings. -/
def pyOrStr (a b : Option String) : Option String :=
  if strTruthy a then a else b

/-- Python `"\n".split` semantics: split a character list at every newline,
keeping empty segments (`"a\n\nb".split("\n") == ["a","","b"]`). -/
def splitNL : List Char → List (List Char)
  | [] => [[]]
  | c :: rest =>
    if c = '\n' then [] :: splitNL rest
    else
      match splitNL rest with
      | [] => [[c]]
      | h :: t => (c :: h) :: t

/-- Python `"\n".join` on a list of segments. -/
def joinNL : List (List Char) → List Char
  | [] => []
  | [l] => l
  | l :: l2 :: ls => l ++ '\n' :: joinNL (l2 :: ls)

/-- True when a character list contains no newline. -/
def nlFree (l : List Char) : Bool :=
  l.all (fun c => c ≠ '\n')

/-!
### `src/src/pdf_extractor.py`

A PDF file on disk is modeled by what the two extraction libraries would
yield for it: `digitalPages` is the per-page text that PyMuPDF reads
(`none` when `fitz.open`/page access raises), `ocrPages` is the per-page
text Tesseract reads from the rasterized pages (`none` when
`convert_from_path`/`pytesseract` raises).
-/

structure PdfFile where
  onDisk : Bool
  digitalPages : Option (List String)
  ocrPages : Option (List String)
deriving Repr, DecidableEq

namespace PDFExtractor

/-- Fixed constant `self.min_text_threshold` from `PDFExtractor.__init__`. -/
def min_text_threshold : Nat := 100

/-- `PDFExtractor.extract_text_digital`: concatenate the pages' text; succeed
with the stripped text only if its stripped length meets the threshold. -/
def extract_text_digital (f : PdfFile) : Option String :=
  match f.digitalPages with
  | none => none
  | some ps =>
    let text := String.join ps
    if min_text_threshold ≤ (pyStrip text).length then some (pyStrip text) else none

/-- `PDFExtractor.extract_text_ocr`: concatenate each page's OCR text followed
by a blank line; succeed with the stripped text only if its stripped length
meets the threshold. -/
def extract_text_ocr (f : PdfFile) : Option String :=
  match f.ocrPages with
  | none => none
  | some ps =>
    let text := String.join (ps.map (fun p => p ++ "\n\n"))
    if min_text_threshold ≤ (pyStrip text).length then some (pyStrip text) else none

/-- `PDFExtractor.extract_text`, instrumented: the second component records
whether the OCR strategy was invoked.  Mirrors the source control flow:
file-existence check, then digital extraction, then (`if text and
len(text.strip()) >= self.min_text_threshold: return text`), else the OCR
fallback with a final truthiness check. -/
def extract_text_run (f : PdfFile) : Option String × Bool :=
  if f.onDisk = false then (none, false)
  else
    let t1 := extract_text_digital f
    if strTruthy t1 && decide (min_text_threshold ≤ (pyStrip (t1.getD "")).length) then
      (t1, false)
    else
      let t2 := extract_text_ocr f
      if strTruthy t2 then (t2, true) else (none, true)

/-- `PDFExtractor.extract_text` as the caller sees it. -/
def extract_text (f : PdfFile) : Option String :=
  (extract_text_run f).1

end PDFExtractor

/-!
### `src/utils/helpers.py`
-/

/-- The value of `datetime.now()` at a call site. -/
structure PyDateTime where
  year : Nat
  month : Nat
  day : Nat
  hour : Nat
  minute : Nat
  second : Nat
  microsecond : Nat
deriving Repr, DecidableEq

/-- Decimal digit character. -/
def digitChar (n : Nat) : Char := Char.ofNat (48 + n)

/-- Two-digit zero-padded decimal rendering (`strftime` `%m`/`%d`/`%H`/`%M`/`%S`
on their valid ranges, all below 100). -/
def pad2 (n : Nat) : List Char := [digitChar (n / 10 % 10), digitChar (n % 10)]

/-- Four-digit zero-padded decimal rendering (`strftime` `%Y` on years below
10000). -/
def pad4 (n : Nat) : List Char :=
  [digitChar (n / 1000 % 10), digitChar (n / 100 % 10), digitChar (n / 10 % 10),
   digitChar (n % 10)]

/-- `utils.helpers.generate_complaint_number`:
`f"ADU-{datetime.now().strftime('%Y%m%d%H%M%S')}"`, as a function of the
current wall-clock time.  `strftime('%Y%m%d%H%M%S')` has no sub-second field,
so `microsecond` is (faithfully) ignored. -/
def generate_complaint_number (t : PyDateTime) : String :=
  "ADU-" ++ String.mk (pad4 t.year ++ pad2 t.month ++ pad2 t.day ++ pad2 t.hour
    ++ pad2 t.minute ++ pad2 t.second)

/-- The second-resolution timestamp that `generate_complaint_number` encodes. -/
def secondStamp (t : PyDateTime) : Nat × Nat × Nat × Nat × Nat × Nat :=
  (t.year, t.month, t.day, t.hour, t.minute, t.second)

/-- Components within `strftime`'s rendered ranges (year below 10000, the
rest below 100; every real `datetime` satisfies this). -/
def validStamp (t : PyDateTime) : Prop :=
  t.year < 10000 ∧ t.month < 100 ∧ t.day < 100 ∧ t.hour < 100 ∧
    t.minute < 100 ∧ t.second < 100

instance (t : PyDateTime) : Decidable (validStamp t) := by
  unfold validStamp; infer_instance

/-- `utils.helpers.sanitize_filename`: `re.sub(r'[^\w\s.-]', '', filename)`
followed by `filename.replace(' ', '_')` (ASCII reading of `\w`/`\s`). -/
def sanitize_filename (s : String) : String :=
  String.mk (((s.data.filter
    (fun c => c.isAlphanum || c == '_' || isPyWs c || c == '.' || c == '-')).map
    (fun c => if c = ' ' then '_' else c)))

/-- `os.path.basename`: the part after the last slash. -/
def basename (s : String) : String :=
  String.mk ((s.data.reverse.takeWhile (fun c => c ≠ '/')).reverse)

/-!
### `src/src/ai_analyzer.py`

The raw analysis payload (the parsed JSON the model returns), with every
JSON object field optional (`none` = key absent or null).
-/

structure PelaporData where
  nama : Option String := none
  ktp : Option String := none
  kontak : Option String := none
deriving Repr, DecidableEq

structure TerlaporData where
  nama : Option String := none
  identitas : Option String := none
  ciri : Option String := none
deriving Repr, DecidableEq

structure KejadianData where
  tanggal : Option String := none
  waktu : Option String := none
  lokasi : Option String := none
  provinsi : Option String := none
deriving Repr, DecidableEq

structure KerugianData where
  materil : Option ℚ := none
  immateril : Option String := none
deriving Repr, DecidableEq

structure BuktiData where
  fisik : Option (List String) := none
  dokumen : Option (List String) := none
  saksi : Option (List String) := none
  digital : Option (List String) := none
deriving Repr, DecidableEq

structure SummaryData where
  executive_summary : Option String := none
  key_points : Option (List String) := none
  tingkat_urgensi : Option String := none
  alasan_urgensi : Option String := none
  missing_information : Option (List String) := none
deriving Repr, DecidableEq

structure QualityData where
  kelengkapan_laporan : Option String := none
  kualitas_bukti : Option String := none
  kompleksitas_kasus : Option String := none
deriving Repr, DecidableEq

/-- One entry of `elemen_terpenuhi`. -/
structure ElemenStatus where
  elemen : Option String := none
  fakta_pendukung : Option String := none
  status : Option String := none
deriving Repr, DecidableEq

/-- One entry of `pasal_utama` / `pasal_alternatif` in the raw payload. -/
structure ArticleData where
  pasal_number : Option String := none
  sumber_hukum : Option String := none
  judul_pasal : Option String := none
  bunyi_pasal : Option String := none
  elemen_konstitutif : Option (List String) := none
  elemen_terpenuhi : Option (List ElemenStatus) := none
  confidence_score : Option ℚ := none
  confidence_level : Option String := none
  reasoning : Option String := none
  alasan : Option String := none
  is_primary : Option Bool := none
  article_type : Option String := none
deriving Repr, DecidableEq

/-- One entry of `recommendations` in the raw payload. -/
structure RecData where
  text : Option String := none
  priority : Option String := none
  category : Option String := none
deriving Repr, DecidableEq

/-- The `_metadata` block `LegalAIAnalyzer.analyze` attaches on success. -/
structure MetadataBlock where
  analysis_duration_seconds : Nat
  analyzed_at : String
  model : String
deriving Repr, DecidableEq

/-- The parsed analysis payload (`analysis_result` in `main.py`). -/
structure AnalysisJson where
  pelapor : Option PelaporData := none
  terlapor : Option TerlaporData := none
  kejadian : Option KejadianData := none
  kronologi : Option String := none
  jenis_kasus : Option String := none
  kerugian : Option KerugianData := none
  bukti : Option BuktiData := none
  pasal_utama : Option (List ArticleData) := none
  pasal_alternatif : Option (List ArticleData) := none
  summary : Option SummaryData := none
  quality : Option QualityData := none
  recommendations : Option (List RecData) := none
  metadata : Option MetadataBlock := none
deriving Repr, DecidableEq

/-- The model name configured in `LegalAIAnalyzer.__init__`
(`genai.GenerativeModel('gemini-2.0-flash')`). -/
def gemini_model_name : String := "gemini-2.0-flash"

/-- Response post-processing of `LegalAIAnalyzer.analyze` on a character
list: `result_text = response.text.strip()`; if it starts with three
backticks, drop the first and last line; if the remainder starts with
`json`, drop those four characters and strip again. -/
def stripFence (l : List Char) : List Char :=
  let t := wsStrip l
  if t.take 3 = ['`', '`', '`'] then
    let inner := joinNL ((splitNL t).drop 1).dropLast
    if inner.take 4 = ['j', 's', 'o', 'n'] then wsStrip (inner.drop 4) else inner
  else t

/-- Response post-processing on `String`. -/
def strip_response (s : String) : String :=
  String.mk (stripFence s.data)

/-- The observable inputs of one `LegalAIAnalyzer.analyze` call: the raw
Gemini response (or the exception the API client raised), the measured
duration `int(time.time() - start_time)`, and `datetime.now().isoformat()`. -/
structure AnalyzeEnv where
  response : Except String String
  duration : Nat
  now_iso : String

/-- `LegalAIAnalyzer.analyze`, parameterized by the JSON parser
(`json.loads`, an external library; `none` = `JSONDecodeError`).  On any
exception or parse failure it returns `none`; on success it overwrites the
`_metadata` key with duration, timestamp and a model identifier string. -/
def analyze (parseJson : String → Option AnalysisJson) (env : AnalyzeEnv) :
    Option AnalysisJson :=
  match env.response with
  | .error _ => none
  | .ok raw =>
    match parseJson (strip_response raw) with
    | none => none
    | some j =>
      some { j with metadata := some {
        analysis_duration_seconds := env.duration,
        analyzed_at := env.now_iso,
        model := "gemini-1.5-pro-latest" } }

/-- `LegalAIAnalyzer.validate_analysis`: presence of the fixed required
top-level keys. -/
def validate_analysis (j : AnalysisJson) : Bool :=
  j.pelapor.isSome && j.terlapor.isSome && j.kejadian.isSome &&
    j.jenis_kasus.isSome && j.pasal_utama.isSome && j.summary.isSome

/-!
### `src/src/models.py` — persisted rows (pydantic models), as `main.py`
instantiates them.

Pydantic validation of a constructor call either yields the row or raises a
`ValidationError`; the builders below mirror exactly the constraints that
the `main.py` call sites can violate: required `str` fields receiving
`None`, and `confidence_score = Field(ge=0.0, le=1.0)`.
-/

/-- A `Complaint` row as `main.py` constructs it (all arguments are strings,
so its pydantic validation always succeeds there). -/
structure Complaint where
  complaint_number : String
  pdf_filename : String
  pdf_path : String
  pdf_url : Option String := none
  extracted_text : Option String := none
  status : String := "pending"
  uploaded_by : Option String := none
deriving Repr, DecidableEq

/-- An `AnalysisResult` row as `main.py` maps it from the payload.  The
`kejadian_tanggal`/`kejadian_waktu` strings are kept verbatim (pydantic's
str→date coercion is not modeled; no claim touches it). -/
structure AnalysisRow where
  complaint_id : Nat
  pelapor_nama : Option String := none
  pelapor_ktp : Option String := none
  pelapor_kontak : Option String := none
  terlapor_nama : Option String := none
  terlapor_identitas : Option String := none
  terlapor_ciri : Option String := none
  kejadian_tanggal : Option String := none
  kejadian_waktu : Option String := none
  kejadian_lokasi : Option String := none
  kejadian_provinsi : Option String := none
  kronologi : Option String := none
  jenis_kasus : Option String := none
  kerugian_materil : Option ℚ := none
  kerugian_immateril : Option String := none
  bukti_fisik : Option (List String) := none
  bukti_dokumen : Option (List String) := none
  bukti_saksi : Option (List String) := none
  bukti_digital : Option (List String) := none
  executive_summary : Option String := none
  key_points : Option (List String) := none
  tingkat_urgensi : Option String := none
  alasan_urgensi : Option String := none
  missing_information : Option (List String) := none
  kelengkapan_laporan : Option String := none
  kualitas_bukti : Option String := none
  kompleksitas_kasus : Option String := none
  full_analysis_json : AnalysisJson
  analyzed_by : String := "AI-Gemini"
  analysis_duration_seconds : Option Nat := none
deriving Repr, DecidableEq

/-- A `LegalArticle` row (post-validation). -/
structure LegalArticle where
  analysis_id : Nat
  pasal_number : String
  sumber_hukum : String
  judul_pasal : Option String := none
  bunyi_pasal : Option String := none
  elemen_konstitutif : Option (List String) := none
  elemen_terpenuhi : Option (List ElemenStatus) := none
  confidence_score : ℚ
  confidence_level : String
  reasoning : Option String := none
  is_primary : Bool
  article_type : String
deriving Repr, DecidableEq

/-- A `Recommendation` row (post-validation). -/
structure Recommendation where
  analysis_id : Nat
  recommendation_text : String
  priority : String := "Normal"
  category : Option String := none
  status : String := "pending"
deriving Repr, DecidableEq

/-- STEP 4 of `main.py`: mapping the payload into the `AnalysisResult`
model (every field is optional there, so this construction is total). -/
def buildAnalysisRow (cid : Nat) (j : AnalysisJson) : AnalysisRow :=
  { complaint_id := cid
    pelapor_nama := (j.pelapor.getD {}).nama
    pelapor_ktp := (j.pelapor.getD {}).ktp
    pelapor_kontak := (j.pelapor.getD {}).kontak
    terlapor_nama := (j.terlapor.getD {}).nama
    terlapor_identitas := (j.terlapor.getD {}).identitas
    terlapor_ciri := (j.terlapor.getD {}).ciri
    kejadian_tanggal := (j.kejadian.getD {}).tanggal
    kejadian_waktu := (j.kejadian.getD {}).waktu
    kejadian_lokasi := (j.kejadian.getD {}).lokasi
    kejadian_provinsi := (j.kejadian.getD {}).provinsi
    kronologi := j.kronologi
    jenis_kasus := j.jenis_kasus
    kerugian_materil := (j.kerugian.getD {}).materil
    kerugian_immateril := (j.kerugian.getD {}).immateril
    bukti_fisik := (j.bukti.getD {}).fisik
    bukti_dokumen := (j.bukti.getD {}).dokumen
    bukti_saksi := (j.bukti.getD {}).saksi
    bukti_digital := (j.bukti.getD {}).digital
    executive_summary := (j.summary.getD {}).executive_summary
    key_points := (j.summary.getD {}).key_points
    tingkat_urgensi := (j.summary.getD {}).tingkat_urgensi
    alasan_urgensi := (j.summary.getD {}).alasan_urgensi
    missing_information := (j.summary.getD {}).missing_information
    kelengkapan_laporan := (j.quality.getD {}).kelengkapan_laporan
    kualitas_bukti := (j.quality.getD {}).kualitas_bukti
    kompleksitas_kasus := (j.quality.getD {}).kompleksitas_kasus
    full_analysis_json := j
    analyzed_by := "AI-Gemini"
    analysis_duration_seconds := j.metadata.map (fun m => m.analysis_duration_seconds) }

/-- STEP 5 of `main.py`, one loop iteration: derive `article_type` (Python
truthiness: `if not article_type` also fires on an explicit empty string),
derive `is_primary`, then run the `LegalArticle(...)` pydantic validation.
`numUtama` is `len(analysis_result.get('pasal_utama', []))`, `i` the index
in the concatenated list.  `mkRat 1 2` is the default `0.5` of
`article_data.get('confidence_score', 0.5)`. -/
def buildLegalArticle (aid : Nat) (numUtama i : Nat) (a : ArticleData) :
    Except String LegalArticle :=
  let aType :=
    if strTruthy a.article_type then a.article_type.getD ""
    else if i < numUtama then "utama" else "alternatif"
  let isPrim := a.is_primary.getD (aType == "utama")
  match a.pasal_number, a.sumber_hukum with
  | some pn, some sh =>
    let cs := a.confidence_score.getD (mkRat 1 2)
    if 0 ≤ cs ∧ cs ≤ 1 then
      .ok { analysis_id := aid
            pasal_number := pn
            sumber_hukum := sh
            judul_pasal := a.judul_pasal
            bunyi_pasal := a.bunyi_pasal
            elemen_konstitutif := a.elemen_konstitutif
            elemen_terpenuhi := a.elemen_terpenuhi
            confidence_score := cs
            confidence_level := a.confidence_level.getD "Sedang"
            reasoning := pyOrStr a.reasoning a.alasan
            is_primary := isPrim
            article_type := aType }
    else .error "ValidationError: confidence_score out of range"
  | _, _ => .error "ValidationError: missing required field"

/-- STEP 6 of `main.py`, one loop iteration: `Recommendation(...)` pydantic
validation (`recommendation_text` is required). -/
def buildRecommendation (aid : Nat) (r : RecData) : Except String Recommendation :=
  match r.text with
  | some t =>
    .ok { analysis_id := aid
          recommendation_text := t
          priority := r.priority.getD "Normal"
          category := r.category
          status := "pending" }
  | none => .error "ValidationError: recommendation_text required"

/-!
### `src/src/database.py` — the database as a state machine

`DB σ` gives the behavior of the six `DatabaseManager` operations `main.py`
uses: each takes the DB state and the call's arguments and returns the
call's outcome (`.error` = the call raised) with the successor state.  The
pipeline interpreter logs every call it makes as a `DBEvent`.
-/

structure DB (σ : Type) where
  create_complaint : σ → Complaint → Except String Nat × σ
  log_action : σ → Option Nat → Option Nat → String → String → Option String →
    Except String Bool × σ
  create_analysis_result : σ → AnalysisRow → Except String Nat × σ
  create_legal_article : σ → LegalArticle → Except String Unit × σ
  create_recommendation : σ → Recommendation → Except String Unit × σ
  update_complaint_status : σ → Nat → String → Except String Bool × σ

deriving instance DecidableEq for Except

/-- One attempted database call, with its outcome. -/
inductive DBEvent where
  | createComplaint (c : Complaint) (r : Except String Nat)
  | logAction (cid : Option Nat) (aid : Option Nat) (action : String)
      (action_by : String) (details : Option String) (r : Except String Bool)
  | createAnalysis (a : AnalysisRow) (r : Except String Nat)
  | createArticle (a : LegalArticle) (r : Except String Unit)
  | createRecommendation (a : Recommendation) (r : Except String Unit)
  | updateStatus (cid : Nat) (status : String) (r : Except String Bool)
deriving Repr, DecidableEq

/-- The `Complaint` rows whose insert succeeded in a trace. -/
def complaintsInserted (tr : List DBEvent) : List Complaint :=
  tr.filterMap fun e => match e with
    | .createComplaint c (.ok _) => some c
    | _ => none

/-- The `AnalysisResult` rows whose insert succeeded in a trace. -/
def analysesInserted (tr : List DBEvent) : List AnalysisRow :=
  tr.filterMap fun e => match e with
    | .createAnalysis a (.ok _) => some a
    | _ => none

/-- The `LegalArticle` rows whose insert succeeded in a trace. -/
def articlesInserted (tr : List DBEvent) : List LegalArticle :=
  tr.filterMap fun e => match e with
    | .createArticle a (.ok _) => some a
    | _ => none

/-- The `Recommendation` rows whose insert succeeded in a trace. -/
def recsInserted (tr : List DBEvent) : List Recommendation :=
  tr.filterMap fun e => match e with
    | .createRecommendation a (.ok _) => some a
    | _ => none

/-- The complaint-status updates that succeeded in a trace, in order. -/
def statusUpdates (tr : List DBEvent) : List (Nat × String) :=
  tr.filterMap fun e => match e with
    | .updateStatus cid st (.ok _) => some (cid, st)
    | _ => none

/-- All database operations never raise. -/
def DBTotal {σ : Type} (db : DB σ) : Prop :=
  (∀ s c, (db.create_complaint s c).1.isOk = true) ∧
  (∀ s cid aid act by_ det, (db.log_action s cid aid act by_ det).1.isOk = true) ∧
  (∀ s a, (db.create_analysis_result s a).1.isOk = true) ∧
  (∀ s a, (db.create_legal_article s a).1.isOk = true) ∧
  (∀ s a, (db.create_recommendation s a).1.isOk = true) ∧
  (∀ s cid st, (db.update_complaint_status s cid st).1.isOk = true)

/-!
### `src/main.py` — `LegalComplaintProcessor.process_complaint`
-/

/-- The dictionary `process_complaint` returns.  (`complaint_id` and
`analysis_id` are `str(...)` of the ids in Python; kept as the ids.)
`duration_seconds` is wall-clock time, not modeled. -/
structure PipeResult where
  success : Bool
  error : Option String := none
  complaint_id : Option Nat := none
  complaint_number : Option String := none
  analysis_id : Option Nat := none
deriving Repr, DecidableEq

/-- The observable inputs of one `process_complaint` call: the path and
uploader arguments, what `os.path.exists` answers, what
`PDFExtractor.extract_text` returns, what `LegalAIAnalyzer.analyze` returns,
and the complaint number `generate_complaint_number()` produces at the
creation timestamp. -/
structure PipeEnv where
  pdf_path : String
  uploaded_by : String
  fileOnDisk : Bool
  extractResult : Option String
  analysisResult : Option AnalysisJson
  complaint_number : String

/-- STEP 5's loop (`for i, article_data in enumerate(articles_to_save)`):
validate and insert each article row; the first pydantic failure or raising
insert aborts the loop with that exception. -/
def saveArticles {σ : Type} (db : DB σ) (aid : Nat) (numUtama : Nat) :
    σ → Nat → List ArticleData → Except String Unit × σ × List DBEvent
  | s, _, [] => (.ok (), s, [])
  | s, i, a :: rest =>
    match buildLegalArticle aid numUtama i a with
    | .error m => (.error m, s, [])
    | .ok row =>
      match db.create_legal_article s row with
      | (.error m, s1) => (.error m, s1, [.createArticle row (.error m)])
      | (.ok u, s1) =>
        let (res, s2, tr) := saveArticles db aid numUtama s1 (i + 1) rest
        (res, s2, .createArticle row (.ok u) :: tr)

/-- STEP 6's loop: validate and insert each recommendation row. -/
def saveRecs {σ : Type} (db : DB σ) (aid : Nat) :
    σ → List RecData → Except String Unit × σ × List DBEvent
  | s, [] => (.ok (), s, [])
  | s, r :: rest =>
    match buildRecommendation aid r with
    | .error m => (.error m, s, [])
    | .ok row =>
      match db.create_recommendation s row with
      | (.error m, s1) => (.error m, s1, [.createRecommendation row (.error m)])
      | (.ok u, s1) =>
        let (res, s2, tr) := saveRecs db aid s1 rest
        (res, s2, .createRecommendation row (.ok u) :: tr)

/-- STEP 2 of `main.py`: the `Complaint(...)` record (all-string arguments,
pydantic validation always passes). -/
def mkComplaint (env : PipeEnv) (text : String) : Complaint :=
  { complaint_number := env.complaint_number
    pdf_filename := sanitize_filename (basename env.pdf_path)
    pdf_path := env.pdf_path
    extracted_text := some text
    status := "processing"
    uploaded_by := some env.uploaded_by }

/-- The `try:` body of `process_complaint` (STEPs 2–7).  A raising call
throws the exception message together with the values of the mutable locals
`complaint_id` and `analysis_id` at that point, which the outer handler
reads. -/
def process_body {σ : Type} (db : DB σ) (env : PipeEnv) (s : σ) (text : String) :
    Except (String × Option Nat × Option Nat) PipeResult × σ × List DBEvent :=
  match db.create_complaint s (mkComplaint env text) with
  | (.error m, s1) => (.error (m, none, none), s1, [.createComplaint (mkComplaint env text) (.error m)])
  | (.ok cid, s1) =>
    let ev1 := DBEvent.createComplaint (mkComplaint env text) (.ok cid)
    match db.log_action s1 (some cid) none "COMPLAINT_UPLOADED" env.uploaded_by
        (some ("PDF: " ++ (mkComplaint env text).pdf_filename)) with
    | (.error m, s2) =>
      (.error (m, some cid, none), s2,
        [ev1, .logAction (some cid) none "COMPLAINT_UPLOADED" env.uploaded_by
          (some ("PDF: " ++ (mkComplaint env text).pdf_filename)) (.error m)])
    | (.ok b1, s2) =>
      let ev2 := DBEvent.logAction (some cid) none "COMPLAINT_UPLOADED"
        env.uploaded_by (some ("PDF: " ++ (mkComplaint env text).pdf_filename)) (.ok b1)
      match env.analysisResult with
      | none =>
        match db.update_complaint_status s2 cid "error" with
        | (.error m, s3) =>
          (.error (m, some cid, none), s3, [ev1, ev2, .updateStatus cid "error" (.error m)])
        | (.ok b2, s3) =>
          (.ok { success := false, error := some "AI analysis failed" }, s3,
            [ev1, ev2, .updateStatus cid "error" (.ok b2)])
      | some aj =>
        let arow := buildAnalysisRow cid aj
        match db.create_analysis_result s2 arow with
        | (.error m, s3) =>
          (.error (m, some cid, none), s3, [ev1, ev2, .createAnalysis arow (.error m)])
        | (.ok aid, s3) =>
          let ev3 := DBEvent.createAnalysis arow (.ok aid)
          let entries := aj.pasal_utama.getD [] ++ aj.pasal_alternatif.getD []
          let numUtama := (aj.pasal_utama.getD []).length
          match saveArticles db aid numUtama s3 0 entries with
          | (.error m, s4, tra) =>
            (.error (m, some cid, some aid), s4, [ev1, ev2, ev3] ++ tra)
          | (.ok _, s4, tra) =>
            match saveRecs db aid s4 (aj.recommendations.getD []) with
            | (.error m, s5, trr) =>
              (.error (m, some cid, some aid), s5, [ev1, ev2, ev3] ++ tra ++ trr)
            | (.ok _, s5, trr) =>
              match db.update_complaint_status s5 cid "analyzed" with
              | (.error m, s6) =>
                (.error (m, some cid, some aid), s6,
                  [ev1, ev2, ev3] ++ tra ++ trr ++ [.updateStatus cid "analyzed" (.error m)])
              | (.ok b3, s6) =>
                match db.log_action s6 (some cid) (some aid) "ANALYSIS_COMPLETED"
                    "system" (some ("Analysis ID: " ++ toString aid)) with
                | (.error m, s7) =>
                  (.error (m, some cid, some aid), s7,
                    [ev1, ev2, ev3] ++ tra ++ trr ++
                      [.updateStatus cid "analyzed" (.ok b3),
                       .logAction (some cid) (some aid) "ANALYSIS_COMPLETED" "system"
                         (some ("Analysis ID: " ++ toString aid)) (.error m)])
                | (.ok b4, s7) =>
                  (.ok { success := true
                         complaint_id := some cid
                         complaint_number := some env.complaint_number
                         analysis_id := some aid }, s7,
                    [ev1, ev2, ev3] ++ tra ++ trr ++
                      [.updateStatus cid "analyzed" (.ok b3),
                       .logAction (some cid) (some aid) "ANALYSIS_COMPLETED" "system"
                         (some ("Analysis ID: " ++ toString aid)) (.ok b4)])

/-- `LegalComplaintProcessor.process_complaint`: file-existence check, STEP 1
(truthiness check on the extracted text — `if not extracted_text`), then the
`try:` body with the outer `except Exception` handler: best-effort recovery
(`update_complaint_status(cid, 'error')` and a `PROCESSING_ERROR` audit log
entry, themselves inside a `try ... except` that swallows their failure) and
the structured failure dictionary carrying the original exception message. -/
def process_complaint {σ : Type} (db : DB σ) (env : PipeEnv) (s : σ) :
    PipeResult × σ × List DBEvent :=
  if env.fileOnDisk = false then
    ({ success := false, error := some "File not found" }, s, [])
  else if strTruthy env.extractResult = false then
    ({ success := false, error := some "Text extraction failed" }, s, [])
  else
    match process_body db env s (env.extractResult.getD "") with
    | (.ok res, s1, tr) => (res, s1, tr)
    | (.error (m, none, _), s1, tr) =>
      ({ success := false, error := some m }, s1, tr)
    | (.error (m, some cid, aidO), s1, tr) =>
      match db.update_complaint_status s1 cid "error" with
      | (.error m2, s2) =>
        ({ success := false, error := some m }, s2,
          tr ++ [.updateStatus cid "error" (.error m2)])
      | (.ok b, s2) =>
        match db.log_action s2 (some cid) aidO "PROCESSING_ERROR" "system" (some m) with
        | (r, s3) =>
          ({ success := false, error := some m }, s3,
            tr ++ [.updateStatus cid "error" (.ok b),
                   .logAction (some cid) aidO "PROCESSING_ERROR" "system" (some m) r])

/-!
### `src/api_server.py` — the `/analyze` endpoint

`analyze_laporan` saves the upload to `/tmp/<filename>`, runs
`process_complaint` on it, converts a failed result into an
`HTTPException(500)`, and in a `finally:` block removes the temp file if it
exists (an `os.remove` failure is logged and swallowed).  The model tracks
whether the temp file saved by this request exists; it does not exist
before the request.
-/

/-- What the endpoint produces: a 200 JSON envelope around the pipeline
result, or an `HTTPException` (converted by FastAPI into an error
response). -/
inductive HttpOutcome where
  | ok (result : PipeResult)
  | httpError (status : Nat) (detail : String)
deriving Repr, DecidableEq

/-- The observable inputs of one `/analyze` request: whether startup
initialization succeeded (`app_state["processor"]`), whether saving the
upload raises, whether `os.remove` succeeds in the `finally:` block, the
upload's filename, and the pipeline environment of the processing call. -/
structure ApiEnv where
  processorOk : Bool
  saveRaises : Option String
  removeOk : Bool
  upload_filename : String
  fileOnDisk : Bool
  extractResult : Option String
  analysisResult : Option AnalysisJson
  complaint_number : String

/-- The `finally:` block: `if os.path.exists(temp_path): try: os.remove(...)
except: log` — returns whether the temp file still exists afterwards. -/
def finallyRemove (removeOk tempSaved : Bool) : Bool :=
  if tempSaved then (if removeOk then false else tempSaved) else tempSaved

/-- `analyze_laporan`: second component is whether this request's temp file
exists on disk when the endpoint returns. -/
def analyze_laporan {σ : Type} (db : DB σ) (s : σ) (ae : ApiEnv) :
    HttpOutcome × Bool :=
  if ae.processorOk = false then
    (.httpError 500
      "Server tidak terkonfigurasi dengan benar (Prosesor gagal). Hubungi administrator.",
      false)
  else
    let temp_path := "/tmp/" ++ ae.upload_filename
    match ae.saveRaises with
    | some m =>
      (.httpError 500 ("Terjadi kesalahan internal pada server: " ++ m),
        finallyRemove ae.removeOk true)
    | none =>
      let pe : PipeEnv :=
        { pdf_path := temp_path
          uploaded_by := "system-api"
          fileOnDisk := ae.fileOnDisk
          extractResult := ae.extractResult
          analysisResult := ae.analysisResult
          complaint_number := ae.complaint_number }
      let res := (process_complaint db pe s).1
      if res.success = false then
        (.httpError 500 ("Gagal memproses file: " ++ res.error.getD "None"),
          finallyRemove ae.removeOk true)
      else
        (.ok res, finallyRemove ae.removeOk true)

/-!
### Spec-side comparison functions (written from the claims' words, to be
compared against the code's behavior)
-/

/-- C2's stated `article_type` derivation: "its explicit field if present,
else 'utama' exactly when its index in the concatenated list is less than
`len(pasal_utama)` and 'alternatif' otherwise". -/
def claimArticleType (numUtama i : Nat) (a : ArticleData) : String :=
  match a.article_type with
  | some t => t
  | none => if i < numUtama then "utama" else "alternatif"

/-- C2's stated `is_primary` derivation: "its explicit field if present,
else true iff `article_type == 'utama'`". -/
def claimIsPrimary (numUtama i : Nat) (a : ArticleData) : Bool :=
  a.is_primary.getD (claimArticleType numUtama i a == "utama")

/-- Amended `article_type` derivation: the explicit field counts only when
present and non-empty (Python truthiness). -/
def amendedArticleType (numUtama i : Nat) (a : ArticleData) : String :=
  match a.article_type with
  | some t => if t = "" then (if i < numUtama then "utama" else "alternatif") else t
  | none => if i < numUtama then "utama" else "alternatif"

/-- Amended `is_primary` derivation over the amended `article_type`. -/
def amendedIsPrimary (numUtama i : Nat) (a : ArticleData) : Bool :=
  a.is_primary.getD (amendedArticleType numUtama i a == "utama")

/-- The (`article_type`, `is_primary`) pairs the amended C2 predicts for the
concatenated article list starting at index `i`. -/
def amendedPairs (numUtama : Nat) : Nat → List ArticleData → List (String × Bool)
  | _, [] => []
  | i, a :: rest =>
    (amendedArticleType numUtama i a, amendedIsPrimary numUtama i a)
      :: amendedPairs numUtama (i + 1) rest

/-- The full row list STEP 5 should persist for the concatenated article
list starting at index `i` (`none` when some entry fails validation). -/
def expectedRows (aid numUtama : Nat) : Nat → List ArticleData → Option (List LegalArticle)
  | _, [] => some []
  | i, a :: rest =>
    match buildLegalArticle aid numUtama i a, expectedRows aid numUtama (i + 1) rest with
    | .ok r, some rs => some (r :: rs)
    | _, _ => none

/-- The full row list STEP 6 should persist for the recommendation list. -/
def expectedRecRows (aid : Nat) : List RecData → Option (List Recommendation)
  | [] => some []
  | r :: rest =>
    match buildRecommendation aid r, expectedRecRows aid rest with
    | .ok x, some xs => some (x :: xs)
    | _, _ => none

/-!
### Concrete databases and inputs used by the witnesses and counterexamples
-/

/-- A database on which every call succeeds; ids come from a counter. -/
def okDB : DB Nat :=
  { create_complaint := fun s _ => (.ok s, s + 1)
    log_action := fun s _ _ _ _ _ => (.ok true, s)
    create_analysis_result := fun s _ => (.ok s, s + 1)
    create_legal_article := fun s _ => (.ok (), s)
    create_recommendation := fun s _ => (.ok (), s)
    update_complaint_status := fun s _ _ => (.ok true, s) }

/-- A database that creates the complaint, then raises on the analysis
insert, and whose status updates and later audit-log writes also raise —
exercising the outer handler and its swallowed secondary failure. -/
def crashDB : DB Unit :=
  { create_complaint := fun s _ => (.ok 7, s)
    log_action := fun s _ _ act _ _ =>
      if act = "COMPLAINT_UPLOADED" then (.ok true, s) else (.error "log down", s)
    create_analysis_result := fun s _ => (.error "insert failed", s)
    create_legal_article := fun s _ => (.ok (), s)
    create_recommendation := fun s _ => (.ok (), s)
    update_complaint_status := fun s _ _ => (.error "db down", s) }

/-- A well-formed primary article entry (`mkRat 9 10` is `0.9`). -/
def sampleArticle : ArticleData :=
  { pasal_number := some "362"
    sumber_hukum := some "KUHP"
    judul_pasal := some "Pencurian"
    confidence_score := some (mkRat 9 10)
    confidence_level := some "Tinggi"
    reasoning := some "unsur terpenuhi"
    is_primary := some true
    article_type := some "utama" }

/-- A well-formed alternative article entry with no explicit type fields and
no confidence score. -/
def sampleAltArticle : ArticleData :=
  { pasal_number := some "378"
    sumber_hukum := some "KUHP" }

/-- A well-formed recommendation entry. -/
def sampleRec : RecData :=
  { text := some "Lakukan penyelidikan lanjutan"
    priority := some "Tinggi" }

/-- A well-formed analysis payload. -/
def sampleAnalysis : AnalysisJson :=
  { jenis_kasus := some "Pencurian"
    pasal_utama := some [sampleArticle]
    pasal_alternatif := some [sampleAltArticle]
    recommendations := some [sampleRec] }

/-- A pipeline environment for a fully successful run. -/
def sampleEnv : PipeEnv :=
  { pdf_path := "/tmp/laporan pengaduan.pdf"
    uploaded_by := "admin-cli"
    fileOnDisk := true
    extractResult := some "isi laporan pengaduan"
    analysisResult := some sampleAnalysis
    complaint_number := "ADU-20251012080000" }

/-- An article entry whose `article_type` field is present but empty. -/
def emptyTypeArticle : ArticleData :=
  { pasal_number := some "362"
    sumber_hukum := some "KUHP"
    article_type := some "" }

/-- A payload whose only article carries the explicit empty `article_type`. -/
def emptyTypeAnalysis : AnalysisJson :=
  { pasal_utama := some [emptyTypeArticle]
    pasal_alternatif := some []
    recommendations := some [] }

/-- A pipeline environment delivering `emptyTypeAnalysis`. -/
def emptyTypeEnv : PipeEnv :=
  { pdf_path := "/tmp/laporan.pdf"
    uploaded_by := "system"
    fileOnDisk := true
    extractResult := some "isi laporan"
    analysisResult := some emptyTypeAnalysis
    complaint_number := "ADU-20251012080001" }

/-- An article entry with an out-of-range confidence score (`mkRat 3 2` is
`1.5`). -/
def outOfRangeArticle : ArticleData :=
  { pasal_number := some "362"
    sumber_hukum := some "KUHP"
    confidence_score := some (mkRat 3 2) }

/-- Characters that can begin a JSON value (object, array, string, number,
`true`, `false`, `null`). -/
def jsonStartChar (c : Char) : Bool :=
  c == '{' || c == '[' || c == '"' || c == 't' || c == 'f' || c == 'n' ||
    c == '-' || c.isDigit

/-- A character list that is a plausible JSON document body: after leading
whitespace it starts with a character that can begin a JSON value.  (In
particular a JSON body never starts with a backtick or with the letters
`json`.) -/
def jsonStartOk (b : List Char) : Bool :=
  match b.dropWhile isPyWs with
  | [] => false
  | c :: _ => jsonStartChar c

/-- The fenced response form of C6: three backticks, language tag `json`, a
newline, the body, a newline, and the closing three backticks. -/
def fenceJson (b : List Char) : List Char :=
  '`' :: '`' :: '`' :: 'j' :: 's' :: 'o' :: 'n' :: '\n' :: (b ++ '\n' :: ['`', '`', '`'])

/-!
## Lemmas about the Python string primitives
-/

theorem dropWhile_ws_head :
    ∀ (l : List Char) (c : Char) (t : List Char),
      l.dropWhile isPyWs = c :: t → isPyWs c = false := by
  intro l
  induction l with
  | nil => intro c t h; simp [List.dropWhile] at h
  | cons a l ih =>
    intro c t h
    by_cases ha : isPyWs a = true
    · simp [List.dropWhile, ha] at h
      exact ih c t h
    · simp [List.dropWhile, ha] at h
      rcases h with ⟨h1, h2⟩
      rw [← h1]
      simpa using ha

theorem dropTrailWs_shape (l : List Char) :
    dropTrailWs l = [] ∨ ∃ c t r, l = c :: t ∧ dropTrailWs l = c :: r := by
  cases l with
  | nil => left; rfl
  | cons c t =>
    by_cases h : (dropTrailWs t).isEmpty = true
    · by_cases hc : isPyWs c = true
      · left; simp [dropTrailWs, h, hc]
      · right; exact ⟨c, t, [], rfl, by simp [dropTrailWs, h, hc]⟩
    · right
      refine ⟨c, t, dropTrailWs t, rfl, ?_⟩
      simp [dropTrailWs, h]

theorem dropTrailWs_idem : ∀ l : List Char, dropTrailWs (dropTrailWs l) = dropTrailWs l := by
  intro l
  induction l with
  | nil => rfl
  | cons c t ih =>
    by_cases h : (dropTrailWs t).isEmpty = true
    · by_cases hc : isPyWs c = true
      · simp [dropTrailWs, h, hc]
      · simp [dropTrailWs, h, hc]
    · simp [dropTrailWs, h, ih]

theorem wsStrip_head (l : List Char) (c : Char) (t : List Char)
    (h : wsStrip l = c :: t) : isPyWs c = false := by
  unfold wsStrip at h
  rcases dropTrailWs_shape (l.dropWhile isPyWs) with h0 | ⟨c2, t2, r2, he, hd⟩
  · rw [h0] at h; simp at h
  · rw [hd] at h
    rcases List.cons.injEq .. ▸ h with ⟨h1, h2⟩
    rw [← h1]
    exact dropWhile_ws_head l c2 t2 he

theorem dropWhile_wsStrip (l : List Char) :
    (wsStrip l).dropWhile isPyWs = wsStrip l := by
  rcases hs : wsStrip l with _ | ⟨c, t⟩
  · rfl
  · have hc := wsStrip_head l c t hs
    simp [List.dropWhile, hc]

theorem wsStrip_idem (l : List Char) : wsStrip (wsStrip l) = wsStrip l := by
  show dropTrailWs ((wsStrip l).dropWhile isPyWs) = wsStrip l
  rw [dropWhile_wsStrip]
  show dropTrailWs (dropTrailWs (l.dropWhile isPyWs)) = wsStrip l
  rw [dropTrailWs_idem]
  rfl

theorem pyStrip_idem (s : String) : pyStrip (pyStrip s) = pyStrip s := by
  show String.mk (wsStrip (wsStrip s.data)) = String.mk (wsStrip s.data)
  rw [wsStrip_idem]

theorem pyStrip_ne_empty (s : String)
    (h : PDFExtractor.min_text_threshold ≤ (pyStrip s).length) : s.isEmpty = false := by
  rw [Bool.eq_false_iff]
  intro hT
  rw [String.isEmpty_iff] at hT
  subst hT
  simp [pyStrip, wsStrip, dropTrailWs, String.length, PDFExtractor.min_text_threshold] at h

/-!
## C1 — the extractor's two-tier fallback policy
-/

theorem extract_text_digital_some (f : PdfFile) (s : String)
    (h : PDFExtractor.extract_text_digital f = some s) :
    s.isEmpty = false ∧ PDFExtractor.min_text_threshold ≤ (pyStrip s).length := by
  unfold PDFExtractor.extract_text_digital at h
  rcases hp : f.digitalPages with _ | ps
  · rw [hp] at h; cases h
  · rw [hp] at h
    by_cases hlen : PDFExtractor.min_text_threshold ≤ (pyStrip (String.join ps)).length
    · simp only [hlen, if_pos, Option.some.injEq] at h
      have hsl : PDFExtractor.min_text_threshold ≤ (pyStrip s).length := by
        rw [← h, pyStrip_idem]; exact hlen
      exact ⟨pyStrip_ne_empty s hsl, hsl⟩
    · simp [hlen] at h

theorem extract_text_ocr_some (f : PdfFile) (s : String)
    (h : PDFExtractor.extract_text_ocr f = some s) : s.isEmpty = false := by
  unfold PDFExtractor.extract_text_ocr at h
  rcases hp : f.ocrPages with _ | ps
  · rw [hp] at h; cases h
  · rw [hp] at h
    by_cases hlen : PDFExtractor.min_text_threshold ≤
        (pyStrip (String.join (ps.map (fun p => p ++ "\n\n")))).length
    · simp only [hlen, if_pos, Option.some.injEq] at h
      have hsl : PDFExtractor.min_text_threshold ≤ (pyStrip s).length := by
        rw [← h, pyStrip_idem]; exact hlen
      exact pyStrip_ne_empty s hsl
    · simp [hlen] at h

/-- C1: `PDFExtractor.extract_text` always attempts digital extraction first
and invokes the OCR strategy only when digital extraction returned `None`
(which, per `extract_text_digital`, is exactly when it raised or its
stripped text is below the fixed 100-character threshold).  When digital
extraction succeeds — in particular whenever the digital text's stripped
length is at least the threshold — its text is returned and OCR is never
invoked; when digital extraction yields nothing, the overall result is
exactly the OCR result, so if both are insufficient the result is `None`. -/
theorem claim1_extractor_fallback (f : PdfFile) (hd : f.onDisk = true) :
    ((PDFExtractor.extract_text_run f).2 = true →
      PDFExtractor.extract_text_digital f = none) ∧
    (∀ s, PDFExtractor.extract_text_digital f = some s →
      PDFExtractor.extract_text_run f = (some s, false)) ∧
    (PDFExtractor.extract_text_digital f = none →
      PDFExtractor.extract_text_run f = (PDFExtractor.extract_text_ocr f, true)) := by
  have hrun2 : ∀ s, PDFExtractor.extract_text_digital f = some s →
      PDFExtractor.extract_text_run f = (some s, false) := by
    intro s hs
    rcases extract_text_digital_some f s hs with ⟨hne, hlen⟩
    unfold PDFExtractor.extract_text_run
    rw [hd]
    simp [hs, strTruthy, hne, hlen]
  refine ⟨?_, hrun2, ?_⟩
  · intro h2
    rcases hdig : PDFExtractor.extract_text_digital f with _ | s
    · rfl
    · rw [hrun2 s hdig] at h2
      simp at h2
  · intro hn
    unfold PDFExtractor.extract_text_run
    rw [hd]
    rcases hocr : PDFExtractor.extract_text_ocr f with _ | s2
    · simp [hn, strTruthy, hocr]
    · have hne := extract_text_ocr_some f s2 hocr
      simp [hn, strTruthy, hocr, hne]

/-- Witness for C1 at a concrete on-disk PDF whose digital layer holds 120
characters. -/
theorem claim1_extractor_fallback_witness :
    ((PDFExtractor.extract_text_run
        ⟨true, some [String.mk (List.replicate 120 'a')], none⟩).2 = true →
      PDFExtractor.extract_text_digital
        ⟨true, some [String.mk (List.replicate 120 'a')], none⟩ = none) ∧
    (∀ s, PDFExtractor.extract_text_digital
        ⟨true, some [String.mk (List.replicate 120 'a')], none⟩ = some s →
      PDFExtractor.extract_text_run
        ⟨true, some [String.mk (List.replicate 120 'a')], none⟩ = (some s, false)) ∧
    (PDFExtractor.extract_text_digital
        ⟨true, some [String.mk (List.replicate 120 'a')], none⟩ = none →
      PDFExtractor.extract_text_run
        ⟨true, some [String.mk (List.replicate 120 'a')], none⟩ =
        (PDFExtractor.extract_text_ocr
          ⟨true, some [String.mk (List.replicate 120 'a')], none⟩, true)) :=
  claim1_extractor_fallback ⟨true, some [String.mk (List.replicate 120 'a')], none⟩ rfl

/-!
## C6 — fenced and unfenced responses parse identically
-/

theorem splitNL_ne_nil : ∀ l : List Char, splitNL l ≠ [] := by
  intro l
  cases l with
  | nil => simp [splitNL]
  | cons c t =>
    by_cases hc : c = '\n'
    · simp [splitNL, hc]
    · rcases h : splitNL t with _ | ⟨h1, t1⟩ <;> simp [splitNL, hc, h]

theorem splitNL_nlFree : ∀ l : List Char, nlFree l = true → splitNL l = [l] := by
  intro l
  induction l with
  | nil => intro _; rfl
  | cons c t ih =>
    intro h
    simp only [nlFree, List.all_cons, Bool.and_eq_true] at h
    obtain ⟨hc, ht⟩ := h
    have hc2 : ¬ c = '\n' := by simpa using hc
    simp [splitNL, hc2, ih ht]

theorem splitNL_cons_of_head : ∀ (a : List Char), nlFree a = true →
    ∀ c : List Char, splitNL (a ++ '\n' :: c) = a :: splitNL c := by
  intro a
  induction a with
  | nil => intro _ c; simp [splitNL]
  | cons x xs ih =>
    intro h c
    simp only [nlFree, List.all_cons, Bool.and_eq_true] at h
    obtain ⟨hx, hxs⟩ := h
    have hx2 : ¬ x = '\n' := by simpa using hx
    have := ih hxs c
    simp [splitNL, hx2, this]

theorem splitNL_concat_of_last (e : List Char) (he : nlFree e = true) :
    ∀ x : List Char, splitNL (x ++ '\n' :: e) = splitNL x ++ [e] := by
  intro x
  induction x with
  | nil => simp [splitNL, splitNL_nlFree e he]
  | cons c t ih =>
    by_cases hc : c = '\n'
    · subst hc; simp [splitNL, ih]
    · have hne := splitNL_ne_nil t
      rcases h : splitNL t with _ | ⟨h1, t1⟩
      · exact absurd h hne
      · rw [h] at ih
        simp [splitNL, hc, ih, h]

theorem joinNL_cons (c : Char) (h : List Char) (t : List (List Char)) :
    joinNL ((c :: h) :: t) = c :: joinNL (h :: t) := by
  cases t <;> rfl

theorem joinNL_splitNL : ∀ l : List Char, joinNL (splitNL l) = l := by
  intro l
  induction l with
  | nil => rfl
  | cons c t ih =>
    have hne := splitNL_ne_nil t
    rcases h : splitNL t with _ | ⟨h1, t1⟩
    · exact absurd h hne
    · rw [h] at ih
      by_cases hc : c = '\n'
      · subst hc
        simp [splitNL, h, joinNL, ih]
      · have hstep : splitNL (c :: t) = (c :: h1) :: t1 := by simp [splitNL, hc, h]
        rw [hstep, joinNL_cons, ih]

theorem dropTrailWs_append_last (c : Char) (hc : isPyWs c = false) :
    ∀ l : List Char, dropTrailWs (l ++ [c]) = l ++ [c] := by
  intro l
  induction l with
  | nil => simp [dropTrailWs, hc]
  | cons a t ih =>
    have hne : ((t ++ [c]) : List Char).isEmpty = false := by
      rcases t with _ | ⟨x, xs⟩ <;> rfl
    simp [dropTrailWs, ih, hne]

theorem wsStrip_fenceJson (b : List Char) : wsStrip (fenceJson b) = fenceJson b := by
  have hisp : isPyWs '`' = false := by decide
  have h1 : fenceJson b =
      ('`' :: '`' :: '`' :: 'j' :: 's' :: 'o' :: 'n' :: '\n' :: (b ++ ['\n', '`', '`'])) ++ ['`'] := by
    simp [fenceJson]
  have hdw : List.dropWhile isPyWs (fenceJson b) = fenceJson b := by
    rw [fenceJson]
    simp [List.dropWhile, hisp]
  show dropTrailWs (List.dropWhile isPyWs (fenceJson b)) = fenceJson b
  rw [hdw, h1, dropTrailWs_append_last '`' hisp]

theorem jsonStartOk_take4 (b : List Char) (hb : jsonStartOk b = true) :
    b.take 4 ≠ ['j', 's', 'o', 'n'] := by
  intro h
  rcases b with _ | ⟨c, r⟩
  · simp [List.take] at h
  · have hc : c = 'j' := by
      have := congrArg List.head? h
      simpa using this
    subst hc
    have hws : isPyWs 'j' = false := by decide
    rw [jsonStartOk] at hb
    simp [List.dropWhile, hws] at hb
    simp [jsonStartChar] at hb

theorem jsonStartOk_strip_take3 (b : List Char) (hb : jsonStartOk b = true) :
    (wsStrip b).take 3 ≠ ['`', '`', '`'] := by
  intro h
  rcases hs : wsStrip b with _ | ⟨c, t⟩
  · rw [hs] at h; simp [List.take] at h
  · rw [hs] at h
    have hc : c = '`' := by
      have := congrArg List.head? h
      simpa using this
    subst hc
    -- the head of `wsStrip b` is the head of `b.dropWhile isPyWs`,
    -- which `jsonStartOk` requires to be a JSON start character
    unfold wsStrip at hs
    rcases dropTrailWs_shape (b.dropWhile isPyWs) with h0 | ⟨c2, t2, r2, he, hd⟩
    · rw [h0] at hs; cases hs
    · rw [hd] at hs
      have hc2 : c2 = '`' := by
        have := congrArg List.head? hs
        simpa using this
      rw [jsonStartOk, he, hc2] at hb
      simp [jsonStartChar] at hb

theorem stripFence_unfenced (b : List Char) (hb : jsonStartOk b = true) :
    stripFence b = wsStrip b := by
  have h3 := jsonStartOk_strip_take3 b hb
  simp [stripFence, h3]

theorem stripFence_fenced (b : List Char) (hb : jsonStartOk b = true) :
    stripFence (fenceJson b) = b := by
  have h4 := jsonStartOk_take4 b hb
  have heq := wsStrip_fenceJson b
  have hf : fenceJson b =
      ['`', '`', '`', 'j', 's', 'o', 'n'] ++ '\n' :: (b ++ '\n' :: ['`', '`', '`']) := rfl
  have hsplit : splitNL (fenceJson b) =
      ['`', '`', '`', 'j', 's', 'o', 'n'] :: (splitNL b ++ [['`', '`', '`']]) := by
    rw [hf, splitNL_cons_of_head _ (by decide), splitNL_concat_of_last _ (by decide)]
  have htake : (fenceJson b).take 3 = ['`', '`', '`'] := by
    rw [hf]; rfl
  simp only [stripFence, heq, htake, if_pos, hsplit, List.drop_succ_cons, List.drop_zero,
    List.dropLast_concat, joinNL_splitNL, h4, if_neg]
  simp [h4]

/-- C6: for every JSON body `b` (a document starting, after optional leading
whitespace, with a character that can begin a JSON value), the analyzer's
response post-processing maps the fenced response
(three backticks + `json` tag, newline, `b`, newline, closing backticks) to
`b` itself and the unfenced response to `b` stripped of surrounding
whitespace; hence any parser insensitive to surrounding whitespace — as
`json.loads` is — yields identical parsed structures for the two forms. -/
theorem claim6_fence_equivalence {J : Type} (parse : List Char → J) (b : List Char)
    (hb : jsonStartOk b = true) (hp : ∀ l, parse (wsStrip l) = parse l) :
    parse (stripFence (fenceJson b)) = parse (stripFence b) := by
  rw [stripFence_fenced b hb, stripFence_unfenced b hb, hp b]

/-- Witness for C6 at the concrete JSON body `[]` and a concrete
whitespace-insensitive parser. -/
theorem claim6_fence_equivalence_witness :
    (fun _ : List Char => (0 : Nat)) (stripFence (fenceJson ['[', ']'])) =
      (fun _ : List Char => (0 : Nat)) (stripFence ['[', ']']) :=
  claim6_fence_equivalence (fun _ => (0 : Nat)) ['[', ']'] (by decide) (fun _ => rfl)

/-!
## C10 — the recorded model identifier is a fixed constant that does not
match the configured inference model
-/

/-- C10: whenever `LegalAIAnalyzer.analyze` succeeds, the `_metadata` block
it attaches records the model as the fixed constant string
`gemini-1.5-pro-latest`, regardless of every input, even though the
configured inference model is `gemini-2.0-flash` — so the recorded
provenance never varies with, nor matches, the model used. -/
theorem claim10_metadata_model (parseJson : String → Option AnalysisJson)
    (env : AnalyzeEnv) (r : AnalysisJson) (h : analyze parseJson env = some r) :
    r.metadata = some { analysis_duration_seconds := env.duration,
                        analyzed_at := env.now_iso,
                        model := "gemini-1.5-pro-latest" } ∧
    ("gemini-1.5-pro-latest" : String) ≠ gemini_model_name := by
  constructor
  · obtain ⟨resp, dur, iso⟩ := env
    rcases resp with m | raw
    · dsimp only [analyze] at h
      cases h
    · dsimp only [analyze] at h
      rcases hp : parseJson (strip_response raw) with _ | j
      · rw [hp] at h; cases h
      · rw [hp] at h
        simp only [Option.some.injEq] at h
        subst h
        rfl
  · decide

/-- Witness for C10 at a concrete response and parser. -/
theorem claim10_metadata_model_witness :
    ({ metadata := some { analysis_duration_seconds := 3,
                          analyzed_at := "2025-10-12T08:00:00",
                          model := "gemini-1.5-pro-latest" } } : AnalysisJson).metadata =
      some { analysis_duration_seconds := 3,
             analyzed_at := "2025-10-12T08:00:00",
             model := "gemini-1.5-pro-latest" } ∧
    ("gemini-1.5-pro-latest" : String) ≠ gemini_model_name :=
  claim10_metadata_model (fun _ => some {})
    ⟨.ok "respons", 3, "2025-10-12T08:00:00"⟩ _ rfl

/-!
## C8 — complaint numbers are second-resolution timestamps, not unique
-/

theorem digitChar_inj :
    ∀ x : Nat, x < 10 → ∀ y : Nat, y < 10 → (digitChar x = digitChar y → x = y) := by
  decide

theorem pad2_inj (a b : Nat) (ha : a < 100) (hb : b < 100) (h : pad2 a = pad2 b) :
    a = b := by
  simp only [pad2, List.cons.injEq, and_true] at h
  obtain ⟨h1, h2⟩ := h
  have e1 := digitChar_inj _ (Nat.mod_lt _ (by norm_num)) _ (Nat.mod_lt _ (by norm_num)) h1
  have e2 := digitChar_inj _ (Nat.mod_lt _ (by norm_num)) _ (Nat.mod_lt _ (by norm_num)) h2
  omega

theorem pad4_inj (a b : Nat) (ha : a < 10000) (hb : b < 10000) (h : pad4 a = pad4 b) :
    a = b := by
  simp only [pad4, List.cons.injEq, and_true] at h
  obtain ⟨h1, h2, h3, h4⟩ := h
  have e1 := digitChar_inj _ (Nat.mod_lt _ (by norm_num)) _ (Nat.mod_lt _ (by norm_num)) h1
  have e2 := digitChar_inj _ (Nat.mod_lt _ (by norm_num)) _ (Nat.mod_lt _ (by norm_num)) h2
  have e3 := digitChar_inj _ (Nat.mod_lt _ (by norm_num)) _ (Nat.mod_lt _ (by norm_num)) h3
  have e4 := digitChar_inj _ (Nat.mod_lt _ (by norm_num)) _ (Nat.mod_lt _ (by norm_num)) h4
  omega

theorem pad2_length (n : Nat) : (pad2 n).length = 2 := rfl

theorem pad4_length (n : Nat) : (pad4 n).length = 4 := rfl

/-- C8 as stated is false: two distinct creation instants — hence two
distinct pipeline runs — that fall within the same wall-clock second receive
the very same complaint number, so the generated values are not unique. -/
theorem claim8_counterexample :
    generate_complaint_number ⟨2025, 10, 12, 8, 0, 0, 0⟩ =
        generate_complaint_number ⟨2025, 10, 12, 8, 0, 0, 500000⟩ ∧
      (⟨2025, 10, 12, 8, 0, 0, 0⟩ : PyDateTime) ≠ ⟨2025, 10, 12, 8, 0, 0, 500000⟩ := by
  exact ⟨rfl, by decide⟩

/-- C8 amended: each complaint number is generated at creation time as
`ADU-` followed by the creation time formatted `YYYYMMDDHHMMSS`, and two
runs receive equal numbers exactly when their creation timestamps agree at
second resolution; uniqueness therefore holds only between runs whose
creation times differ in some second-resolution field, while runs within
the same second (or differing only in sub-second time) reuse the number. -/
theorem claim8_amended (t1 t2 : PyDateTime) (h1 : validStamp t1) (h2 : validStamp t2) :
    generate_complaint_number t1 = generate_complaint_number t2 ↔
      secondStamp t1 = secondStamp t2 := by
  obtain ⟨hy1, hmo1, hd1, hh1, hmi1, hs1⟩ := h1
  obtain ⟨hy2, hmo2, hd2, hh2, hmi2, hs2⟩ := h2
  constructor
  · intro h
    have hdata := congrArg String.data h
    have e1 : (generate_complaint_number t1).data =
        'A' :: 'D' :: 'U' :: '-' :: (pad4 t1.year ++ pad2 t1.month ++ pad2 t1.day ++
          pad2 t1.hour ++ pad2 t1.minute ++ pad2 t1.second) := rfl
    have e2 : (generate_complaint_number t2).data =
        'A' :: 'D' :: 'U' :: '-' :: (pad4 t2.year ++ pad2 t2.month ++ pad2 t2.day ++
          pad2 t2.hour ++ pad2 t2.minute ++ pad2 t2.second) := rfl
    rw [e1, e2] at hdata
    simp only [List.cons.injEq, true_and, List.append_assoc] at hdata
    obtain ⟨hy, hrest⟩ := List.append_inj hdata (by rw [pad4_length, pad4_length])
    obtain ⟨hmo, hrest⟩ := List.append_inj hrest (by rw [pad2_length, pad2_length])
    obtain ⟨hd, hrest⟩ := List.append_inj hrest (by rw [pad2_length, pad2_length])
    obtain ⟨hh, hrest⟩ := List.append_inj hrest (by rw [pad2_length, pad2_length])
    obtain ⟨hmi, hs⟩ := List.append_inj hrest (by rw [pad2_length, pad2_length])
    simp only [secondStamp, Prod.mk.injEq]
    exact ⟨pad4_inj _ _ hy1 hy2 hy, pad2_inj _ _ hmo1 hmo2 hmo, pad2_inj _ _ hd1 hd2 hd,
      pad2_inj _ _ hh1 hh2 hh, pad2_inj _ _ hmi1 hmi2 hmi, pad2_inj _ _ hs1 hs2 hs⟩
  · intro h
    simp only [secondStamp, Prod.mk.injEq] at h
    obtain ⟨hy, hmo, hd, hh, hmi, hs⟩ := h
    simp [generate_complaint_number, hy, hmo, hd, hh, hmi, hs]

/-- Witness for the amended C8 at two concrete timestamps differing in the
seconds field. -/
theorem claim8_amended_witness :
    (generate_complaint_number ⟨2025, 10, 12, 8, 0, 1, 0⟩ =
        generate_complaint_number ⟨2025, 10, 12, 8, 0, 2, 0⟩ ↔
      secondStamp ⟨2025, 10, 12, 8, 0, 1, 0⟩ = secondStamp ⟨2025, 10, 12, 8, 0, 2, 0⟩) :=
  claim8_amended ⟨2025, 10, 12, 8, 0, 1, 0⟩ ⟨2025, 10, 12, 8, 0, 2, 0⟩
    (by decide) (by decide)

/-!
## Lemmas about the pipeline interpreter
-/

theorem isOk_exists {α : Type} (r : Except String α) (h : r.isOk = true) :
    ∃ a, r = .ok a := by
  cases r with
  | error e => simp [Except.isOk, Except.toBool] at h
  | ok a => exact ⟨a, rfl⟩

theorem buildLegalArticle_type_eq (numUtama i : Nat) (a : ArticleData) :
    (if strTruthy a.article_type then a.article_type.getD ""
      else if i < numUtama then "utama" else "alternatif") =
      amendedArticleType numUtama i a := by
  rcases hat : a.article_type with _ | t
  · simp [strTruthy, amendedArticleType, hat]
  · by_cases ht : t = ""
    · subst ht
      have he : ("" : String).isEmpty = true := rfl
      simp [strTruthy, amendedArticleType, hat, he]
    · have hne : t.isEmpty = false := by
        rw [Bool.eq_false_iff]; intro hT; rw [String.isEmpty_iff] at hT; exact ht hT
      simp [strTruthy, amendedArticleType, hat, ht, hne]

theorem buildLegalArticle_ok (aid numUtama i : Nat) (a : ArticleData) (r : LegalArticle)
    (h : buildLegalArticle aid numUtama i a = .ok r) :
    r.article_type = amendedArticleType numUtama i a ∧
    r.is_primary = amendedIsPrimary numUtama i a ∧
    r.confidence_score = a.confidence_score.getD (mkRat 1 2) ∧
    0 ≤ r.confidence_score ∧ r.confidence_score ≤ 1 := by
  unfold buildLegalArticle at h
  rcases hpn : a.pasal_number with _ | pn <;> rcases hsh : a.sumber_hukum with _ | sh <;>
    rw [hpn, hsh] at h <;> dsimp only at h
  · cases h
  · cases h
  · cases h
  · by_cases hcs : (0 : ℚ) ≤ a.confidence_score.getD (mkRat 1 2) ∧
        a.confidence_score.getD (mkRat 1 2) ≤ 1
    · rw [if_pos hcs] at h
      simp only [Except.ok.injEq] at h
      subst h
      refine ⟨buildLegalArticle_type_eq numUtama i a, ?_, rfl, hcs.1, hcs.2⟩
      show a.is_primary.getD _ = amendedIsPrimary numUtama i a
      rw [buildLegalArticle_type_eq numUtama i a]
      rfl
    · rw [if_neg hcs] at h
      cases h

theorem buildLegalArticle_out_of_range (aid numUtama i : Nat) (a : ArticleData) (q : ℚ)
    (hq : a.confidence_score = some q) (hout : q < 0 ∨ 1 < q) :
    ∃ m, buildLegalArticle aid numUtama i a = .error m := by
  unfold buildLegalArticle
  rcases hpn : a.pasal_number with _ | pn <;> rcases hsh : a.sumber_hukum with _ | sh <;>
    dsimp only
  · exact ⟨_, rfl⟩
  · exact ⟨_, rfl⟩
  · exact ⟨_, rfl⟩
  · rw [hq]
    have hcs : ¬ ((0 : ℚ) ≤ (some q).getD (mkRat 1 2) ∧ (some q).getD (mkRat 1 2) ≤ 1) := by
      simp only [Option.getD_some]
      rcases hout with h1 | h1
      · intro hc; exact absurd hc.1 (not_le.mpr h1)
      · intro hc; exact absurd hc.2 (not_le.mpr h1)
    rw [if_neg hcs]
    exact ⟨_, rfl⟩

theorem saveArticles_ok_trace {σ : Type} (db : DB σ) (aid numUtama : Nat) :
    ∀ (entries : List ArticleData) (s : σ) (i : Nat) (s2 : σ) (tr : List DBEvent),
      saveArticles db aid numUtama s i entries = (.ok (), s2, tr) →
      ∃ rows, expectedRows aid numUtama i entries = some rows ∧
        tr = rows.map (fun r => DBEvent.createArticle r (.ok ())) ∧
        rows.map (fun r => (r.article_type, r.is_primary)) = amendedPairs numUtama i entries := by
  intro entries
  induction entries with
  | nil =>
    intro s i s2 tr h
    simp only [saveArticles, Prod.mk.injEq] at h
    exact ⟨[], rfl, h.2.2.symm, rfl⟩
  | cons a rest ih =>
    intro s i s2 tr h
    unfold saveArticles at h
    rcases hb : buildLegalArticle aid numUtama i a with m | row <;> rw [hb] at h <;>
      dsimp only at h
    · simp at h
    · rcases hc : db.create_legal_article s row with ⟨rc, sc⟩
      rw [hc] at h
      rcases rc with m | u <;> dsimp only at h
      · simp at h
      · rcases hrec : saveArticles db aid numUtama sc (i + 1) rest with ⟨res3, s3, tr3⟩
        rw [hrec] at h
        dsimp only at h
        simp only [Prod.mk.injEq] at h
        obtain ⟨hres, hseq, htr⟩ := h
        obtain ⟨rows3, hrows3, htr3, hpairs3⟩ := ih sc (i + 1) s3 tr3 (by rw [hrec, hres])
        obtain ⟨htype, hprim, -, -, -⟩ := buildLegalArticle_ok aid numUtama i a row hb
        refine ⟨row :: rows3, ?_, ?_, ?_⟩
        · simp [expectedRows, hb, hrows3]
        · cases u
          rw [← htr, htr3]
          rfl
        · simp [amendedPairs, htype, hprim, hpairs3]

theorem saveArticles_rows_range {σ : Type} (db : DB σ) (aid numUtama : Nat) :
    ∀ (entries : List ArticleData) (s : σ) (i : Nat),
      ∀ r ∈ articlesInserted (saveArticles db aid numUtama s i entries).2.2,
        0 ≤ r.confidence_score ∧ r.confidence_score ≤ 1 := by
  intro entries
  induction entries with
  | nil => intro s i r hr; simp [saveArticles, articlesInserted] at hr
  | cons a rest ih =>
    intro s i r hr
    unfold saveArticles at hr
    rcases hb : buildLegalArticle aid numUtama i a with m | row <;> rw [hb] at hr <;>
      dsimp only at hr
    · simp [articlesInserted] at hr
    · rcases hc : db.create_legal_article s row with ⟨rc, sc⟩
      rw [hc] at hr
      rcases rc with m | u <;> dsimp only at hr
      · simp [articlesInserted] at hr
      · rcases hrec : saveArticles db aid numUtama sc (i + 1) rest with ⟨res3, s3, tr3⟩
        rw [hrec] at hr
        dsimp only at hr
        simp only [articlesInserted, List.filterMap_cons] at hr
        rw [List.mem_cons] at hr
        rcases hr with hr | hr
        · subst hr
          obtain ⟨-, -, -, h4, h5⟩ := buildLegalArticle_ok aid numUtama i a r hb
          exact ⟨h4, h5⟩
        · have := ih sc (i + 1) r
          rw [hrec] at this
          exact this hr

theorem saveRecs_ok_trace {σ : Type} (db : DB σ) (aid : Nat) :
    ∀ (entries : List RecData) (s : σ) (s2 : σ) (tr : List DBEvent),
      saveRecs db aid s entries = (.ok (), s2, tr) →
      ∃ rows, expectedRecRows aid entries = some rows ∧
        tr = rows.map (fun r => DBEvent.createRecommendation r (.ok ())) := by
  intro entries
  induction entries with
  | nil =>
    intro s s2 tr h
    simp only [saveRecs, Prod.mk.injEq] at h
    exact ⟨[], rfl, h.2.2.symm⟩
  | cons a rest ih =>
    intro s s2 tr h
    unfold saveRecs at h
    rcases hb : buildRecommendation aid a with m | row <;> rw [hb] at h <;>
      dsimp only at h
    · simp at h
    · rcases hc : db.create_recommendation s row with ⟨rc, sc⟩
      rw [hc] at h
      rcases rc with m | u <;> dsimp only at h
      · simp at h
      · rcases hrec : saveRecs db aid sc rest with ⟨res3, s3, tr3⟩
        rw [hrec] at h
        dsimp only at h
        simp only [Prod.mk.injEq] at h
        obtain ⟨hres, hseq, htr⟩ := h
        obtain ⟨rows3, hrows3, htr3⟩ := ih sc s3 tr3 (by rw [hrec, hres])
        refine ⟨row :: rows3, ?_, ?_⟩
        · simp [expectedRecRows, hb, hrows3]
        · cases u
          rw [← htr, htr3]
          rfl

theorem filterMap_map_eq_self {α β : Type} (g : α → β) (f : β → Option α)
    (l : List α) (h : ∀ x, f (g x) = some x) : (l.map g).filterMap f = l := by
  induction l with
  | nil => rfl
  | cons x xs ih => simp [List.filterMap_cons, h, ih]

theorem filterMap_map_eq_none {α β γ : Type} (g : α → β) (f : β → Option γ)
    (l : List α) (h : ∀ x, f (g x) = none) : (l.map g).filterMap f = [] := by
  induction l with
  | nil => rfl
  | cons x xs ih => simp [List.filterMap_cons, h, ih]

theorem articlesInserted_append (l1 l2 : List DBEvent) :
    articlesInserted (l1 ++ l2) = articlesInserted l1 ++ articlesInserted l2 :=
  List.filterMap_append ..

theorem recsInserted_append (l1 l2 : List DBEvent) :
    recsInserted (l1 ++ l2) = recsInserted l1 ++ recsInserted l2 :=
  List.filterMap_append ..

theorem analysesInserted_append (l1 l2 : List DBEvent) :
    analysesInserted (l1 ++ l2) = analysesInserted l1 ++ analysesInserted l2 :=
  List.filterMap_append ..

theorem statusUpdates_append (l1 l2 : List DBEvent) :
    statusUpdates (l1 ++ l2) = statusUpdates l1 ++ statusUpdates l2 :=
  List.filterMap_append ..

theorem complaintsInserted_append (l1 l2 : List DBEvent) :
    complaintsInserted (l1 ++ l2) = complaintsInserted l1 ++ complaintsInserted l2 :=
  List.filterMap_append ..

/-- Characterization of a `try:` body that returned normally: it is either
STEP 3's analysis-failure return, or the full success return — in which case
the trace holds exactly the expected article rows (in order), recommendation
rows, one analysis row, and the single `analyzed` status update. -/
theorem process_body_ok_spec {σ : Type} (db : DB σ) (env : PipeEnv) (s : σ) (text : String)
    (res : PipeResult) (s1 : σ) (tr : List DBEvent)
    (hB : process_body db env s text = (.ok res, s1, tr)) :
    res = { success := false, error := some "AI analysis failed" } ∨
    (∃ aj cid aid rows recRows,
      env.analysisResult = some aj ∧
      res = { success := true, error := none, complaint_id := some cid,
              complaint_number := some env.complaint_number, analysis_id := some aid } ∧
      expectedRows aid (aj.pasal_utama.getD []).length 0
        (aj.pasal_utama.getD [] ++ aj.pasal_alternatif.getD []) = some rows ∧
      expectedRecRows aid (aj.recommendations.getD []) = some recRows ∧
      articlesInserted tr = rows ∧
      rows.map (fun r => (r.article_type, r.is_primary)) =
        amendedPairs (aj.pasal_utama.getD []).length 0
          (aj.pasal_utama.getD [] ++ aj.pasal_alternatif.getD []) ∧
      recsInserted tr = recRows ∧
      analysesInserted tr = [buildAnalysisRow cid aj] ∧
      statusUpdates tr = [(cid, "analyzed")] ∧
      complaintsInserted tr = [mkComplaint env text]) := by
  unfold process_body at hB
  rcases hP : db.create_complaint s (mkComplaint env text) with ⟨rc, sc⟩
  rw [hP] at hB
  rcases rc with m | cid <;> dsimp only at hB
  · simp at hB
  · rcases hL : db.log_action sc (some cid) none "COMPLAINT_UPLOADED" env.uploaded_by
        (some ("PDF: " ++ (mkComplaint env text).pdf_filename)) with ⟨rl, sl⟩
    rw [hL] at hB
    rcases rl with m | b1 <;> dsimp only at hB
    · simp at hB
    · rcases hA : env.analysisResult with _ | aj <;> rw [hA] at hB <;> dsimp only at hB
      · rcases hU : db.update_complaint_status sl cid "error" with ⟨ru, su⟩
        rw [hU] at hB
        rcases ru with m | b2 <;> dsimp only at hB
        · simp at hB
        · left
          simp only [Prod.mk.injEq, Except.ok.injEq] at hB
          exact hB.1.symm
      · rcases hAn : db.create_analysis_result sl (buildAnalysisRow cid aj) with ⟨ra, sa⟩
        rw [hAn] at hB
        rcases ra with m | aid <;> dsimp only at hB
        · simp at hB
        · rcases hSA : saveArticles db aid (aj.pasal_utama.getD []).length sa 0
              (aj.pasal_utama.getD [] ++ aj.pasal_alternatif.getD []) with ⟨rsa, ssa, tra⟩
          rw [hSA] at hB
          rcases rsa with m | u <;> dsimp only at hB
          · simp at hB
          · cases u
            rcases hSR : saveRecs db aid ssa (aj.recommendations.getD []) with ⟨rsr, ssr, trr⟩
            rw [hSR] at hB
            rcases rsr with m | u2 <;> dsimp only at hB
            · simp at hB
            · cases u2
              rcases hU2 : db.update_complaint_status ssr cid "analyzed" with ⟨ru2, su2⟩
              rw [hU2] at hB
              rcases ru2 with m | b3 <;> dsimp only at hB
              · simp at hB
              · rcases hL2 : db.log_action su2 (some cid) (some aid) "ANALYSIS_COMPLETED"
                    "system" (some ("Analysis ID: " ++ toString aid)) with ⟨rl2, sl2⟩
                rw [hL2] at hB
                rcases rl2 with m | b4 <;> dsimp only at hB
                · simp at hB
                · right
                  simp only [Prod.mk.injEq, Except.ok.injEq] at hB
                  obtain ⟨hres, hs1, htr⟩ := hB
                  obtain ⟨rows, hrows, htra, hpairs⟩ :=
                    saveArticles_ok_trace db aid _ _ sa 0 ssa tra hSA
                  obtain ⟨recRows, hrecRows, htrr⟩ :=
                    saveRecs_ok_trace db aid _ ssa ssr trr hSR
                  have eA1 : articlesInserted tra = rows := by
                    rw [htra]; exact filterMap_map_eq_self _ _ _ (fun x => rfl)
                  have eA2 : recsInserted tra = [] := by
                    rw [htra]; exact filterMap_map_eq_none _ _ _ (fun x => rfl)
                  have eA3 : analysesInserted tra = [] := by
                    rw [htra]; exact filterMap_map_eq_none _ _ _ (fun x => rfl)
                  have eA4 : statusUpdates tra = [] := by
                    rw [htra]; exact filterMap_map_eq_none _ _ _ (fun x => rfl)
                  have eA5 : complaintsInserted tra = [] := by
                    rw [htra]; exact filterMap_map_eq_none _ _ _ (fun x => rfl)
                  have eR1 : recsInserted trr = recRows := by
                    rw [htrr]; exact filterMap_map_eq_self _ _ _ (fun x => rfl)
                  have eR2 : articlesInserted trr = [] := by
                    rw [htrr]; exact filterMap_map_eq_none _ _ _ (fun x => rfl)
                  have eR3 : analysesInserted trr = [] := by
                    rw [htrr]; exact filterMap_map_eq_none _ _ _ (fun x => rfl)
                  have eR4 : statusUpdates trr = [] := by
                    rw [htrr]; exact filterMap_map_eq_none _ _ _ (fun x => rfl)
                  have eR5 : complaintsInserted trr = [] := by
                    rw [htrr]; exact filterMap_map_eq_none _ _ _ (fun x => rfl)
                  refine ⟨aj, cid, aid, rows, recRows, rfl, hres.symm, hrows, hrecRows,
                    ?_, hpairs, ?_, ?_, ?_, ?_⟩ <;>
                    rw [← htr] <;>
                    simp only [articlesInserted, recsInserted, analysesInserted, statusUpdates,
                      complaintsInserted] at eA1 eA2 eA3 eA4 eA5 eR1 eR2 eR3 eR4 eR5 ⊢ <;>
                    simp [List.filterMap_append, List.filterMap_cons, eA1, eA2, eA3, eA4, eA5,
                      eR1, eR2, eR3, eR4, eR5]

/-- When the database never raises and the analyzer returned `None` (after
the complaint row was created), the `try:` body returns the analysis-failure
dictionary and the trace is exactly: complaint insert, upload audit log,
`error` status update. -/
theorem process_body_none_spec {σ : Type} (db : DB σ) (env : PipeEnv) (s : σ) (text : String)
    (hT : DBTotal db) (hA : env.analysisResult = none) :
    ∃ cid b1 b2 s1,
      process_body db env s text =
        (.ok { success := false, error := some "AI analysis failed" }, s1,
          [.createComplaint (mkComplaint env text) (.ok cid),
           .logAction (some cid) none "COMPLAINT_UPLOADED" env.uploaded_by
             (some ("PDF: " ++ (mkComplaint env text).pdf_filename)) (.ok b1),
           .updateStatus cid "error" (.ok b2)]) := by
  obtain ⟨hT1, hT2, hT3, hT4, hT5, hT6⟩ := hT
  rcases hP : db.create_complaint s (mkComplaint env text) with ⟨rc, sc⟩
  have h1 := hT1 s (mkComplaint env text)
  rw [hP] at h1
  obtain ⟨cid, rfl⟩ := isOk_exists rc h1
  rcases hL : db.log_action sc (some cid) none "COMPLAINT_UPLOADED" env.uploaded_by
      (some ("PDF: " ++ (mkComplaint env text).pdf_filename)) with ⟨rl, sl⟩
  have h2 := hT2 sc (some cid) none "COMPLAINT_UPLOADED" env.uploaded_by
    (some ("PDF: " ++ (mkComplaint env text).pdf_filename))
  rw [hL] at h2
  obtain ⟨b1, rfl⟩ := isOk_exists rl h2
  rcases hU : db.update_complaint_status sl cid "error" with ⟨ru, su⟩
  have h3 := hT6 sl cid "error"
  rw [hU] at h3
  obtain ⟨b2, rfl⟩ := isOk_exists ru h3
  refine ⟨cid, b1, b2, su, ?_⟩
  unfold process_body
  rw [hP]
  dsimp only
  rw [hL]
  dsimp only
  rw [hA]
  dsimp only
  rw [hU]

/-- Either the pipeline returned one of its structured-failure dictionaries,
or the `try:` body returned normally and the pipeline passed its result and
trace through unchanged. -/
theorem process_complaint_shape {σ : Type} (db : DB σ) (env : PipeEnv) (s : σ) :
    (∃ m, (process_complaint db env s).1 = { success := false, error := some m }) ∨
    (∃ res s1 tr, process_body db env s (env.extractResult.getD "") = (.ok res, s1, tr) ∧
      process_complaint db env s = (res, s1, tr)) := by
  unfold process_complaint
  by_cases hD : env.fileOnDisk = false
  · rw [if_pos hD]; left; exact ⟨"File not found", rfl⟩
  · rw [if_neg hD]
    by_cases hE : strTruthy env.extractResult = false
    · rw [if_pos hE]; left; exact ⟨"Text extraction failed", rfl⟩
    · rw [if_neg hE]
      rcases hB : process_body db env s (env.extractResult.getD "") with ⟨r, s1, tr⟩
      rcases r with ⟨m, cidO, aidO⟩ | res <;> dsimp only
      · rcases cidO with _ | cid <;> dsimp only
        · left; exact ⟨m, rfl⟩
        · rcases hU : db.update_complaint_status s1 cid "error" with ⟨ru, s2⟩
          rcases ru with m2 | b <;> dsimp only <;> left <;> exact ⟨m, rfl⟩
      · right; exact ⟨res, s1, tr, rfl, rfl⟩

theorem expectedRows_length (aid numUtama : Nat) :
    ∀ (entries : List ArticleData) (i : Nat) (rows : List LegalArticle),
      expectedRows aid numUtama i entries = some rows → rows.length = entries.length := by
  intro entries
  induction entries with
  | nil => intro i rows h; simp only [expectedRows, Option.some.injEq] at h; rw [← h]; rfl
  | cons a rest ih =>
    intro i rows h
    unfold expectedRows at h
    rcases hb : buildLegalArticle aid numUtama i a with m | row <;>
      rcases he : expectedRows aid numUtama (i + 1) rest with _ | rs <;>
      simp [hb, he] at h
    subst h
    simp [ih (i + 1) rs he]

theorem expectedRecRows_length (aid : Nat) :
    ∀ (entries : List RecData) (rows : List Recommendation),
      expectedRecRows aid entries = some rows → rows.length = entries.length := by
  intro entries
  induction entries with
  | nil => intro rows h; simp only [expectedRecRows, Option.some.injEq] at h; rw [← h]; rfl
  | cons a rest ih =>
    intro rows h
    unfold expectedRecRows at h
    rcases hb : buildRecommendation aid a with m | row <;>
      rcases he : expectedRecRows aid rest with _ | rs <;>
      simp [hb, he] at h
    subst h
    simp [ih rs he]

/-!
## C5 — failures before Complaint creation: structured result, zero writes
-/

/-- C5: an input that fails before Complaint creation produces a structured
failure without raising and performs zero database writes (empty trace,
database state untouched): a nonexistent path yields exactly the
`File not found` failure, and an existing file whose extraction yields
`None` yields exactly the `Text extraction failed` failure. -/
theorem claim5_prevalidation_failures {σ : Type} (db : DB σ) (env : PipeEnv) (s : σ) :
    (env.fileOnDisk = false →
      process_complaint db env s =
        ({ success := false, error := some "File not found" }, s, [])) ∧
    (env.fileOnDisk = true → env.extractResult = none →
      process_complaint db env s =
        ({ success := false, error := some "Text extraction failed" }, s, [])) := by
  constructor
  · intro h
    simp [process_complaint, h]
  · intro h1 h2
    simp [process_complaint, h1, h2, strTruthy]

/-- Witness for C5 at a nonexistent path and at a file whose extraction
fails. -/
theorem claim5_prevalidation_failures_witness :
    process_complaint okDB { sampleEnv with fileOnDisk := false } 1 =
        ({ success := false, error := some "File not found" }, 1, []) ∧
      process_complaint okDB { sampleEnv with extractResult := none } 1 =
        ({ success := false, error := some "Text extraction failed" }, 1, []) :=
  ⟨(claim5_prevalidation_failures okDB { sampleEnv with fileOnDisk := false } 1).1 rfl,
   (claim5_prevalidation_failures okDB { sampleEnv with extractResult := none } 1).2 rfl rfl⟩

/-!
## C4 — analysis failure after Complaint creation
-/

/-- C4: when the analyzer returns `None` after the Complaint row was created
(and the database calls made succeed), the pipeline sets the Complaint's
status to `error`, returns exactly the `AI analysis failed` failure, and
creates zero `AnalysisResult`, `LegalArticle`, or `Recommendation` rows. -/
theorem claim4_analysis_failure {σ : Type} (db : DB σ) (env : PipeEnv) (s : σ)
    (hT : DBTotal db) (hD : env.fileOnDisk = true)
    (hE : strTruthy env.extractResult = true) (hA : env.analysisResult = none) :
    (process_complaint db env s).1 =
      { success := false, error := some "AI analysis failed" } ∧
    (∃ cid, complaintsInserted (process_complaint db env s).2.2 =
        [mkComplaint env (env.extractResult.getD "")] ∧
      statusUpdates (process_complaint db env s).2.2 = [(cid, "error")]) ∧
    analysesInserted (process_complaint db env s).2.2 = [] ∧
    articlesInserted (process_complaint db env s).2.2 = [] ∧
    recsInserted (process_complaint db env s).2.2 = [] := by
  obtain ⟨cid, b1, b2, s1, hBody⟩ :=
    process_body_none_spec db env s (env.extractResult.getD "") hT hA
  have hD2 : ¬ (env.fileOnDisk = false) := by rw [hD]; simp
  have hE2 : ¬ (strTruthy env.extractResult = false) := by rw [hE]; simp
  unfold process_complaint
  rw [if_neg hD2, if_neg hE2, hBody]
  dsimp only
  exact ⟨rfl, ⟨cid, rfl, rfl⟩, rfl, rfl, rfl⟩

/-- Witness for C4 at a concrete environment whose analysis fails. -/
theorem claim4_analysis_failure_witness :
    (process_complaint okDB { sampleEnv with analysisResult := none } 1).1 =
      { success := false, error := some "AI analysis failed" } ∧
    (∃ cid, complaintsInserted
          (process_complaint okDB { sampleEnv with analysisResult := none } 1).2.2 =
        [mkComplaint { sampleEnv with analysisResult := none }
          (({ sampleEnv with analysisResult := none } : PipeEnv).extractResult.getD "")] ∧
      statusUpdates (process_complaint okDB { sampleEnv with analysisResult := none } 1).2.2 =
        [(cid, "error")]) ∧
    analysesInserted (process_complaint okDB { sampleEnv with analysisResult := none } 1).2.2 = [] ∧
    articlesInserted (process_complaint okDB { sampleEnv with analysisResult := none } 1).2.2 = [] ∧
    recsInserted (process_complaint okDB { sampleEnv with analysisResult := none } 1).2.2 = [] :=
  claim4_analysis_failure okDB { sampleEnv with analysisResult := none } 1
    ⟨fun _ _ => rfl, fun _ _ _ _ _ _ => rfl, fun _ _ => rfl, fun _ _ => rfl,
     fun _ _ => rfl, fun _ _ _ => rfl⟩ rfl rfl rfl

/-!
## C3 — the outer failure handler
-/

/-- C3: `process_complaint` always returns a dictionary with a boolean
`success` key — `error` absent on success and an error string on failure —
and never lets an exception escape (it is a total function of its inputs).
When the `try:` body raises after the Complaint row was created (message
`m`, complaint id `cid`), the returned dictionary carries exactly the
original message `m`, the handler attempts the `error` status update, then
the `PROCESSING_ERROR` audit log entry carrying `m`; if the status update
itself raises, that secondary failure is swallowed (the log write is not
attempted) and the returned error string is still `m`. -/
theorem claim3_outer_handler {σ : Type} (db : DB σ) (env : PipeEnv) (s : σ) :
    (((process_complaint db env s).1.success = true ∧
        (process_complaint db env s).1.error = none) ∨
      ((process_complaint db env s).1.success = false ∧
        ∃ m, (process_complaint db env s).1.error = some m)) ∧
    (∀ (m : String) (cid : Nat) (aidO : Option Nat) (s1 : σ) (tr : List DBEvent),
      env.fileOnDisk = true → strTruthy env.extractResult = true →
      process_body db env s (env.extractResult.getD "") = (.error (m, some cid, aidO), s1, tr) →
      (process_complaint db env s).1 = { success := false, error := some m } ∧
      ∀ (ru : Except String Bool) (s2 : σ),
        db.update_complaint_status s1 cid "error" = (ru, s2) →
        ((∀ m2, ru = .error m2 →
            (process_complaint db env s).2.2 = tr ++ [.updateStatus cid "error" (.error m2)]) ∧
         (∀ b, ru = .ok b →
            ∀ (rl : Except String Bool) (s3 : σ),
              db.log_action s2 (some cid) aidO "PROCESSING_ERROR" "system" (some m) = (rl, s3) →
              (process_complaint db env s).2.2 =
                tr ++ [.updateStatus cid "error" (.ok b),
                       .logAction (some cid) aidO "PROCESSING_ERROR" "system" (some m) rl]))) := by
  constructor
  · rcases process_complaint_shape db env s with ⟨m, hfail⟩ | ⟨res, s1, tr, hB, hpc⟩
    · right
      rw [hfail]
      exact ⟨rfl, m, rfl⟩
    · rcases process_body_ok_spec db env s _ res s1 tr hB with hfail2 |
        ⟨aj, cid, aid, rows, recRows, -, hres, -⟩
      · right
        rw [hpc, hfail2]
        exact ⟨rfl, "AI analysis failed", rfl⟩
      · left
        rw [hpc, hres]
        exact ⟨rfl, rfl⟩
  · intro m cid aidO s1 tr hD hE hBody
    have hD2 : ¬ (env.fileOnDisk = false) := by rw [hD]; simp
    have hE2 : ¬ (strTruthy env.extractResult = false) := by rw [hE]; simp
    unfold process_complaint
    rw [if_neg hD2, if_neg hE2, hBody]
    dsimp only
    rcases hU : db.update_complaint_status s1 cid "error" with ⟨ru, s2⟩
    rcases ru with m2 | b <;> dsimp only
    · refine ⟨rfl, ?_⟩
      intro ru2 s22 hU2
      simp only [Prod.mk.injEq] at hU2
      obtain ⟨h1, h2⟩ := hU2
      constructor
      · intro m3 hm3
        rw [← h1] at hm3
        simp only [Except.error.injEq] at hm3
        rw [hm3]
      · intro b hb
        rw [← h1] at hb
        cases hb
    · refine ⟨rfl, ?_⟩
      intro ru2 s22 hU2
      simp only [Prod.mk.injEq] at hU2
      obtain ⟨h1, h2⟩ := hU2
      constructor
      · intro m3 hm3
        rw [← h1] at hm3
        cases hm3
      · intro b2 hb2 rl2 s32 hL2
        rw [← h1] at hb2
        simp only [Except.ok.injEq] at hb2
        subst hb2
        rw [← h2] at hL2
        have hfst : (db.log_action s2 (some cid) aidO "PROCESSING_ERROR" "system"
            (some m)).1 = rl2 := by rw [hL2]
        rw [← hfst]

/-- Witness for C3: a database raising on the analysis insert and again
during the recovery status update; the original message survives. -/
theorem claim3_outer_handler_witness :
    (process_complaint crashDB sampleEnv ()).1 =
      { success := false, error := some "insert failed" } ∧
    ∀ (ru : Except String Bool) (s2 : Unit),
      crashDB.update_complaint_status () 7 "error" = (ru, s2) →
      ((∀ m2, ru = .error m2 →
          (process_complaint crashDB sampleEnv ()).2.2 =
            [.createComplaint (mkComplaint sampleEnv "isi laporan pengaduan") (.ok 7),
             .logAction (some 7) none "COMPLAINT_UPLOADED" "admin-cli"
               (some "PDF: laporan_pengaduan.pdf") (.ok true),
             .createAnalysis (buildAnalysisRow 7 sampleAnalysis) (.error "insert failed")] ++
              [.updateStatus 7 "error" (.error m2)]) ∧
       (∀ b, ru = .ok b →
          ∀ (rl : Except String Bool) (s3 : Unit),
            crashDB.log_action s2 (some 7) none "PROCESSING_ERROR" "system"
              (some "insert failed") = (rl, s3) →
            (process_complaint crashDB sampleEnv ()).2.2 =
              [.createComplaint (mkComplaint sampleEnv "isi laporan pengaduan") (.ok 7),
               .logAction (some 7) none "COMPLAINT_UPLOADED" "admin-cli"
                 (some "PDF: laporan_pengaduan.pdf") (.ok true),
               .createAnalysis (buildAnalysisRow 7 sampleAnalysis) (.error "insert failed")] ++
                [.updateStatus 7 "error" (.ok b),
                 .logAction (some 7) none "PROCESSING_ERROR" "system"
                   (some "insert failed") rl])) :=
  (claim3_outer_handler crashDB sampleEnv ()).2 "insert failed" 7 none ()
    [.createComplaint (mkComplaint sampleEnv "isi laporan pengaduan") (.ok 7),
     .logAction (some 7) none "COMPLAINT_UPLOADED" "admin-cli"
       (some "PDF: laporan_pengaduan.pdf") (.ok true),
     .createAnalysis (buildAnalysisRow 7 sampleAnalysis) (.error "insert failed")]
    rfl rfl rfl

/-!
## C2 — persistence of articles and recommendations on a successful run
-/

/-- C2 as stated is false: an article entry whose `article_type` field is
present but the empty string is persisted with the derived type (`utama`
here), not its explicit field — `main.py` tests the field with Python
truthiness (`if not article_type`), not with presence.  Concretely: a
successful run over a payload whose single primary article carries
`article_type = ""` persists one row with `article_type = "utama"`, while
the claim's derivation rule predicts the explicit `""`. -/
theorem claim2_persistence_counterexample :
    (process_complaint okDB emptyTypeEnv 0).1.success = true ∧
    emptyTypeEnv.analysisResult = some emptyTypeAnalysis ∧
    emptyTypeAnalysis.pasal_utama = some [emptyTypeArticle] ∧
    emptyTypeArticle.article_type = some "" ∧
    claimArticleType 1 0 emptyTypeArticle = "" ∧
    (articlesInserted (process_complaint okDB emptyTypeEnv 0).2.2).map
      (fun r => r.article_type) = ["utama"] ∧
    ("utama" : String) ≠ "" :=
  ⟨by decide, rfl, rfl, rfl, by decide, by decide, by decide⟩

/-- C2 amended (the explicit `article_type` field counts only when present
and non-empty; everything else as stated): every successful pipeline run
inserts exactly `len(pasal_utama) + len(pasal_alternatif)` `LegalArticle`
rows — the primary list first in its original order, then the alternative
list in its original order (`expectedRows` walks the concatenated list in
order) — where each row's `article_type` is the entry's explicit field if
present and non-empty, else `utama` exactly when its index is below
`len(pasal_utama)` and `alternatif` otherwise, and `is_primary` is the
explicit field if present, else true iff the derived type is `utama`; it
also inserts exactly `len(recommendations)` `Recommendation` rows and sets
the Complaint's status to `analyzed`. -/
theorem claim2_persistence_amended {σ : Type} (db : DB σ) (env : PipeEnv) (s : σ)
    (hs : (process_complaint db env s).1.success = true) :
    ∃ aj cid aid rows recRows,
      env.analysisResult = some aj ∧
      (process_complaint db env s).1 =
        { success := true, error := none, complaint_id := some cid,
          complaint_number := some env.complaint_number, analysis_id := some aid } ∧
      articlesInserted (process_complaint db env s).2.2 = rows ∧
      expectedRows aid (aj.pasal_utama.getD []).length 0
        (aj.pasal_utama.getD [] ++ aj.pasal_alternatif.getD []) = some rows ∧
      rows.length = (aj.pasal_utama.getD []).length + (aj.pasal_alternatif.getD []).length ∧
      rows.map (fun r => (r.article_type, r.is_primary)) =
        amendedPairs (aj.pasal_utama.getD []).length 0
          (aj.pasal_utama.getD [] ++ aj.pasal_alternatif.getD []) ∧
      recsInserted (process_complaint db env s).2.2 = recRows ∧
      expectedRecRows aid (aj.recommendations.getD []) = some recRows ∧
      recRows.length = (aj.recommendations.getD []).length ∧
      analysesInserted (process_complaint db env s).2.2 = [buildAnalysisRow cid aj] ∧
      statusUpdates (process_complaint db env s).2.2 = [(cid, "analyzed")] := by
  rcases process_complaint_shape db env s with ⟨m, hfail⟩ | ⟨res, s1, tr, hB, hpc⟩
  · rw [hfail] at hs
    simp at hs
  · rcases process_body_ok_spec db env s _ res s1 tr hB with hfail2 |
      ⟨aj, cid, aid, rows, recRows, hA, hres, hrows, hrecRows, hart, hpairs, hrecs,
        hanal, hstat, hcompl⟩
    · rw [hpc, hfail2] at hs
      simp at hs
    · have hlen : rows.length =
          (aj.pasal_utama.getD []).length + (aj.pasal_alternatif.getD []).length := by
        rw [expectedRows_length aid (aj.pasal_utama.getD []).length
          (aj.pasal_utama.getD [] ++ aj.pasal_alternatif.getD []) 0 rows hrows,
          List.length_append]
      have hlen2 : recRows.length = (aj.recommendations.getD []).length :=
        expectedRecRows_length aid (aj.recommendations.getD []) recRows hrecRows
      exact ⟨aj, cid, aid, rows, recRows, hA, by rw [hpc]; exact hres,
        by rw [hpc]; exact hart, hrows, hlen, hpairs, by rw [hpc]; exact hrecs,
        hrecRows, hlen2, by rw [hpc]; exact hanal, by rw [hpc]; exact hstat⟩

/-- Witness for the amended C2 at a concrete successful run with one primary
article, one alternative article, and one recommendation. -/
theorem claim2_persistence_amended_witness :
    ∃ aj cid aid rows recRows,
      sampleEnv.analysisResult = some aj ∧
      (process_complaint okDB sampleEnv 1).1 =
        { success := true, error := none, complaint_id := some cid,
          complaint_number := some sampleEnv.complaint_number, analysis_id := some aid } ∧
      articlesInserted (process_complaint okDB sampleEnv 1).2.2 = rows ∧
      expectedRows aid (aj.pasal_utama.getD []).length 0
        (aj.pasal_utama.getD [] ++ aj.pasal_alternatif.getD []) = some rows ∧
      rows.length = (aj.pasal_utama.getD []).length + (aj.pasal_alternatif.getD []).length ∧
      rows.map (fun r => (r.article_type, r.is_primary)) =
        amendedPairs (aj.pasal_utama.getD []).length 0
          (aj.pasal_utama.getD [] ++ aj.pasal_alternatif.getD []) ∧
      recsInserted (process_complaint okDB sampleEnv 1).2.2 = recRows ∧
      expectedRecRows aid (aj.recommendations.getD []) = some recRows ∧
      recRows.length = (aj.recommendations.getD []).length ∧
      analysesInserted (process_complaint okDB sampleEnv 1).2.2 = [buildAnalysisRow cid aj] ∧
      statusUpdates (process_complaint okDB sampleEnv 1).2.2 = [(cid, "analyzed")] :=
  claim2_persistence_amended okDB sampleEnv 1 (by decide)

/-!
## C7 — confidence scores of persisted article rows
-/

theorem saveRecs_articles_nil {σ : Type} (db : DB σ) (aid : Nat) :
    ∀ (entries : List RecData) (s : σ),
      articlesInserted (saveRecs db aid s entries).2.2 = [] := by
  intro entries
  induction entries with
  | nil => intro s; rfl
  | cons a rest ih =>
    intro s
    unfold saveRecs
    rcases hb : buildRecommendation aid a with m | row <;> dsimp only
    · rfl
    · rcases hc : db.create_recommendation s row with ⟨rc, sc⟩
      rcases rc with m | u <;> dsimp only
      · rfl
      · rcases hrec : saveRecs db aid sc rest with ⟨res3, s3, tr3⟩
        dsimp only
        have := ih sc
        rw [hrec] at this
        simp only [articlesInserted, List.filterMap_cons] at this ⊢
        exact this

theorem process_body_articles_range {σ : Type} (db : DB σ) (env : PipeEnv) (s : σ)
    (text : String) :
    ∀ r ∈ articlesInserted (process_body db env s text).2.2,
      0 ≤ r.confidence_score ∧ r.confidence_score ≤ 1 := by
  intro r hr
  unfold process_body at hr
  rcases hP : db.create_complaint s (mkComplaint env text) with ⟨rc, sc⟩
  rw [hP] at hr
  rcases rc with m | cid <;> dsimp only at hr
  · simp [articlesInserted] at hr
  · rcases hL : db.log_action sc (some cid) none "COMPLAINT_UPLOADED" env.uploaded_by
        (some ("PDF: " ++ (mkComplaint env text).pdf_filename)) with ⟨rl, sl⟩
    rw [hL] at hr
    rcases rl with m | b1 <;> dsimp only at hr
    · simp [articlesInserted] at hr
    · rcases hA : env.analysisResult with _ | aj <;> rw [hA] at hr <;> dsimp only at hr
      · rcases hU : db.update_complaint_status sl cid "error" with ⟨ru, su⟩
        rw [hU] at hr
        rcases ru with m | b2 <;> dsimp only at hr <;> simp [articlesInserted] at hr
      · rcases hAn : db.create_analysis_result sl (buildAnalysisRow cid aj) with ⟨ra, sa⟩
        rw [hAn] at hr
        rcases ra with m | aid <;> dsimp only at hr
        · simp [articlesInserted] at hr
        · rcases hSA : saveArticles db aid (aj.pasal_utama.getD []).length sa 0
              (aj.pasal_utama.getD [] ++ aj.pasal_alternatif.getD []) with ⟨rsa, ssa, tra⟩
          rw [hSA] at hr
          have htra : ∀ x ∈ articlesInserted tra,
              0 ≤ x.confidence_score ∧ x.confidence_score ≤ 1 := by
            have := saveArticles_rows_range db aid (aj.pasal_utama.getD []).length
              (aj.pasal_utama.getD [] ++ aj.pasal_alternatif.getD []) sa 0
            rw [hSA] at this
            exact this
          rcases rsa with m | u <;> dsimp only at hr
          · simp only [articlesInserted_append, List.mem_append] at hr
            rcases hr with hr | hr
            · simp [articlesInserted] at hr
            · exact htra r hr
          · rcases hSR : saveRecs db aid ssa (aj.recommendations.getD []) with ⟨rsr, ssr, trr⟩
            rw [hSR] at hr
            have htrr : articlesInserted trr = [] := by
              have := saveRecs_articles_nil db aid (aj.recommendations.getD []) ssa
              rw [hSR] at this
              exact this
            rcases rsr with m | u2 <;> dsimp only at hr
            · simp only [articlesInserted_append, List.mem_append, htrr] at hr
              rcases hr with (hr | hr) | hr
              · simp [articlesInserted] at hr
              · exact htra r hr
              · simp at hr
            · rcases hU2 : db.update_complaint_status ssr cid "analyzed" with ⟨ru2, su2⟩
              rw [hU2] at hr
              rcases ru2 with m | b3 <;> dsimp only at hr
              · simp only [articlesInserted_append, List.mem_append, htrr] at hr
                rcases hr with ((hr | hr) | hr) | hr
                · simp [articlesInserted] at hr
                · exact htra r hr
                · simp at hr
                · simp [articlesInserted] at hr
              · rcases hL2 : db.log_action su2 (some cid) (some aid) "ANALYSIS_COMPLETED"
                    "system" (some ("Analysis ID: " ++ toString aid)) with ⟨rl2, sl2⟩
                rw [hL2] at hr
                rcases rl2 with m | b4 <;> dsimp only at hr <;>
                  simp only [articlesInserted_append, List.mem_append, htrr] at hr <;>
                  [rcases hr with ((hr | hr) | hr) | hr;
                   rcases hr with ((hr | hr) | hr) | hr] <;>
                  first
                  | exact htra r hr
                  | simp [articlesInserted] at hr

/-- C7: every `LegalArticle` row any pipeline run persists has
`confidence_score` within `[0.0, 1.0]`; an article entry carrying an
out-of-range `confidence_score` is rejected by the `LegalArticle(...)`
model validation (which raises before the insert call for that row is
made), and an entry with no `confidence_score` field is persisted with the
default `0.5`. -/
theorem claim7_confidence_bounds (σ : Type) :
    (∀ (db : DB σ) (env : PipeEnv) (s : σ),
      ∀ r ∈ articlesInserted (process_complaint db env s).2.2,
        0 ≤ r.confidence_score ∧ r.confidence_score ≤ 1) ∧
    (∀ (aid numUtama i : Nat) (a : ArticleData) (q : ℚ), a.confidence_score = some q →
      (q < 0 ∨ 1 < q) → ∃ m, buildLegalArticle aid numUtama i a = .error m) ∧
    (∀ (aid numUtama i : Nat) (a : ArticleData) (r : LegalArticle),
      a.confidence_score = none → buildLegalArticle aid numUtama i a = .ok r →
      r.confidence_score = (0.5 : ℚ)) := by
  refine ⟨?_, buildLegalArticle_out_of_range, ?_⟩
  · intro db env s r hr
    unfold process_complaint at hr
    by_cases hD : env.fileOnDisk = false
    · rw [if_pos hD] at hr
      simp [articlesInserted] at hr
    · rw [if_neg hD] at hr
      by_cases hE : strTruthy env.extractResult = false
      · rw [if_pos hE] at hr
        simp [articlesInserted] at hr
      · rw [if_neg hE] at hr
        have hbody := process_body_articles_range db env s (env.extractResult.getD "")
        rcases hB : process_body db env s (env.extractResult.getD "") with ⟨rb, s1, tr⟩
        rw [hB] at hr
        rw [hB] at hbody
        rcases rb with ⟨m, cidO, aidO⟩ | res <;> dsimp only at hr
        · rcases cidO with _ | cid <;> dsimp only at hr
          · exact hbody r hr
          · rcases hU : db.update_complaint_status s1 cid "error" with ⟨ru, s2⟩
            rw [hU] at hr
            rcases ru with m2 | b <;> dsimp only at hr <;>
              simp only [articlesInserted_append, List.mem_append] at hr <;>
              rcases hr with hr | hr
            · exact hbody r hr
            · simp [articlesInserted] at hr
            · exact hbody r hr
            · simp [articlesInserted] at hr
        · exact hbody r hr
  · intro aid numUtama i a r hnone hok
    have h3 := (buildLegalArticle_ok aid numUtama i a r hok).2.2.1
    rw [h3, hnone]
    show mkRat 1 2 = (0.5 : ℚ)
    rw [Rat.mkRat_eq_div]
    norm_num

/-- Witness for C7: the range invariant at a concrete run,
rejection of a concrete out-of-range entry, and the concrete default. -/
theorem claim7_confidence_bounds_witness :
    (∀ r ∈ articlesInserted (process_complaint okDB sampleEnv 1).2.2,
      0 ≤ r.confidence_score ∧ r.confidence_score ≤ 1) ∧
    (∃ m, buildLegalArticle 2 1 0 outOfRangeArticle = .error m) ∧
    (∀ r : LegalArticle, buildLegalArticle 2 1 1 sampleAltArticle = .ok r →
      r.confidence_score = (0.5 : ℚ)) :=
  ⟨(claim7_confidence_bounds Nat).1 okDB sampleEnv 1,
   (claim7_confidence_bounds Nat).2.1 2 1 0 outOfRangeArticle (mkRat 3 2) rfl
     (Or.inr (by decide)),
   fun r h => (claim7_confidence_bounds Nat).2.2 2 1 1 sampleAltArticle r rfl h⟩

/-!
## C9 — the upload endpoint's temp file is removed on every exit path
-/

/-- C9: for every request to the `/analyze` endpoint — whatever branch is
taken: startup-failure rejection, an exception while saving, a failed
pipeline run converted to `HTTPException(500)`, an expected failure, or
success — the temporary saved upload file is gone when the endpoint
returns, provided the `finally:` block's `os.remove` succeeds: the cleanup
is the scoped `finally:` block, not branch-conditional code. -/
theorem claim9_temp_file_cleanup {σ : Type} (db : DB σ) (s : σ) (ae : ApiEnv)
    (hr : ae.removeOk = true) : (analyze_laporan db s ae).2 = false := by
  unfold analyze_laporan
  by_cases hp : ae.processorOk = false
  · rw [if_pos hp]
  · rw [if_neg hp]
    rcases hs2 : ae.saveRaises with _ | m <;> dsimp only
    · split <;> simp [finallyRemove, hr]
    · simp [finallyRemove, hr]

/-- Witness for C9 at a concrete request whose pipeline run succeeds. -/
theorem claim9_temp_file_cleanup_witness :
    (analyze_laporan okDB 5
      ⟨true, none, true, "laporan.pdf", true, some "teks laporan",
        some sampleAnalysis, "ADU-20251012090000"⟩).2 = false :=
  claim9_temp_file_cleanup okDB 5
    ⟨true, none, true, "laporan.pdf", true, some "teks laporan",
      some sampleAnalysis, "ADU-20251012090000"⟩ rfl

end AiAnalyzer
